import Mathlib

/-!
Verification of the `drone-stm32-map` SVD patch/codegen pipeline and of the
GPIO static ownership schema.

The development shallowly embeds:
* the Device model (peripherals, registers, fields) consumed by the pipeline
  (the model itself lives in the external `drone_svd` crate, so its operations
  are modelled from the documented interface contract);
* the patch operations `copy_reg` / `copy_field` and the per-variant patch
  programs of `svd/src/lib.rs`;
* the variant dispatch `svd_deserialize` and the emission entry points
  `generate_regs` / `generate_rest` with their exclusion list;
* the GPIO peripheral schema of `src/periph/gpio/lib.rs` (the `periph!` block
  and the `map_gpio_port` expansion with its per-variant guards).
-/

set_option maxRecDepth 4000

namespace DroneStm32Map

/-- Variant Key: one constructor per `stm32_mcu` value accepted by
`svd_deserialize` in `svd/src/lib.rs` (match arms, lines 64-90). -/
inductive Mcu where
  | stm32f100
  | stm32f101
  | stm32f102
  | stm32f103
  | stm32f107
  | stm32f401
  | stm32f405
  | stm32f407
  | stm32f410
  | stm32f411
  | stm32f412
  | stm32f413
  | stm32f427
  | stm32f429
  | stm32f446
  | stm32f469
  | stm32l4x1
  | stm32l4x2
  | stm32l4x3
  | stm32l4x5
  | stm32l4x6
  | stm32l4r5
  | stm32l4r7
  | stm32l4r9
  | stm32l4s5
  | stm32l4s7
  | stm32l4s9
deriving Repr, DecidableEq, Fintype

/-- Errors of the pipeline, from spec section 7 (the `drone_svd` accessor and
the patch operations report failures through `anyhow::Result` in the source;
the error kinds are the spec's). -/
inductive SvdError where
  | lookupError (name : String)
  | duplicateRegister (periph reg : String)
  | fieldOverlap (periph reg field : String)
  | unsupportedVariant
  | parseError (msg : String)
deriving Repr, DecidableEq

deriving instance DecidableEq for Except

/-- Field of a register: name, starting bit position, bit width
(`drone_svd` in-memory model, consumed as an external contract). -/
structure Field where
  name : String
  bitOffset : Nat
  bitWidth : Nat
deriving Repr, DecidableEq

/-- Register: name and its fields (`drone_svd` in-memory model). -/
structure Register where
  name : String
  fields : List Field
deriving Repr, DecidableEq

/-- Interrupt metadata: name, vector number, owning peripheral is the record
holder (spec section 4.4, opaque beyond that). -/
structure Interrupt where
  name : String
  value : Nat
deriving Repr, DecidableEq

/-- Peripheral: name, its registers and its interrupt metadata
(`drone_svd` in-memory model). -/
structure Peripheral where
  name : String
  regs : List Register
  interrupts : List Interrupt := []
deriving Repr, DecidableEq

/-- Device: root container of peripherals (`drone_svd` in-memory model). -/
structure Device where
  periphs : List Peripheral
deriving Repr, DecidableEq

/-- Lookup of a peripheral by name, mirroring `dev.periph(name)`. -/
def Device.periph (d : Device) (name : String) : Option Peripheral :=
  d.periphs.find? (fun p => p.name = name)

/-- Lookup of a register by name, mirroring `periph.reg(name)`. -/
def Peripheral.reg (p : Peripheral) (name : String) : Option Register :=
  p.regs.find? (fun r => r.name = name)

/-- Lookup of a field by name, mirroring `reg.field(name)`. -/
def Register.field (r : Register) (name : String) : Option Field :=
  r.fields.find? (fun f => f.name = name)

/-- Bit ranges `[f.bitOffset, f.bitOffset + f.bitWidth)` and
`[g.bitOffset, g.bitOffset + g.bitWidth)` intersect. -/
def Field.overlaps (f g : Field) : Bool :=
  f.bitOffset < g.bitOffset + g.bitWidth && g.bitOffset < f.bitOffset + f.bitWidth

/-- Modelled from the spec: `add_reg` of the external `drone_svd` accessor
(`svd/src/lib.rs` only calls it; the crate is not under `src/`).  Spec 4.1/4.2/7:
adding a register fails with `DuplicateRegister` when the peripheral already
owns a register of that name, and leaves the peripheral unchanged in that case;
otherwise the register is appended. -/
def Peripheral.add_reg (p : Peripheral) (r : Register) : Except SvdError Peripheral :=
  if (p.reg r.name).isSome then
    .error (.duplicateRegister p.name r.name)
  else
    .ok { p with regs := p.regs ++ [r] }

/-- Modelled from the spec: `add_field` of the external `drone_svd` accessor.
Spec 4.2/7: adding a field fails with `FieldOverlap` when the register already
contains a field occupying an overlapping bit range; otherwise the field is
appended. -/
def Register.add_field (pname : String) (r : Register) (f : Field) : Except SvdError Register :=
  if r.fields.any (fun g => g.overlaps f) then
    .error (.fieldOverlap pname r.name f.name)
  else
    .ok { r with fields := r.fields ++ [f] }

/-- Replaces the peripheral of the same name inside the device. -/
def Device.setPeriph (d : Device) (p : Peripheral) : Device :=
  { periphs := d.periphs.map (fun q => if q.name = p.name then p else q) }

/-- Replaces the register of the same name inside the peripheral. -/
def Peripheral.setReg (p : Peripheral) (r : Register) : Peripheral :=
  { p with regs := p.regs.map (fun s => if s.name = r.name then r else s) }

/-- Translation of `copy_reg` (`svd/src/lib.rs` lines 413-416): clone the
register `reg_name` of `periph_from` and add it to `periph_to`.  Lookups that
miss are the accessor's `LookupError`; the duplicate check happens inside
`add_reg`. -/
def copy_reg (dev : Device) (periph_from periph_to reg_name : String) :
    Except SvdError Device :=
  match dev.periph periph_from with
  | none => .error (.lookupError periph_from)
  | some pf =>
    match pf.reg reg_name with
    | none => .error (.lookupError reg_name)
    | some reg =>
      match dev.periph periph_to with
      | none => .error (.lookupError periph_to)
      | some pt => (pt.add_reg reg).map (fun pt2 => dev.setPeriph pt2)

/-- Translation of `copy_field` (`svd/src/lib.rs` lines 418-431): clone the
field `field_name` of register `reg_name` of `periph_from` and add it to the
same-named register of `periph_to`.  The overlap check happens inside
`add_field`. -/
def copy_field (dev : Device) (periph_from periph_to reg_name field_name : String) :
    Except SvdError Device :=
  match dev.periph periph_from with
  | none => .error (.lookupError periph_from)
  | some pf =>
    match pf.reg reg_name with
    | none => .error (.lookupError reg_name)
    | some rf =>
      match rf.field field_name with
      | none => .error (.lookupError field_name)
      | some fld =>
        match dev.periph periph_to with
        | none => .error (.lookupError periph_to)
        | some pt =>
          match pt.reg reg_name with
          | none => .error (.lookupError reg_name)
          | some rt =>
            (rt.add_field periph_to fld).map
              (fun rt2 => dev.setPeriph (pt.setReg rt2))

/-- Names of the per-peripheral fix functions invoked by the variant patch
programs of `svd/src/lib.rs`.  The functions themselves live in the submodules
(`svd/src/adc.rs`, `svd/src/tim.rs`, ...), which are not under `src/`, so the
patch programs are kept parametric in their semantics. -/
inductive FixName where
  | spi_fix_spi2_1
  | spi_fix_spi2_2
  | spi_fix_spi3_1
  | spi_fix_spi3_2
  | rcc_fix_1
  | rcc_fix_2
  | rcc_fix_3
  | rcc_fix_4
  | dma_fix_dma1
  | dma_fix_dma2_1
  | dma_fix_dma2_2
  | dmamux_add_dmamux1
  | exti_fix_exti_1
  | exti_fix_exti_2
  | tim_fix_tim1_1
  | tim_fix_tim1_2
  | tim_fix_tim2_1
  | tim_fix_tim2_2
  | tim_fix_tim2_3
  | tim_fix_tim3_1
  | tim_fix_tim3_2
  | tim_fix_tim3_3
  | tim_fix_tim5_1
  | tim_fix_tim5_2
  | tim_fix_tim6
  | tim_fix_tim7
  | tim_fix_tim8
  | tim_fix_tim9_1
  | tim_fix_tim10_1
  | tim_fix_tim10_2
  | tim_fix_tim11_1
  | tim_fix_tim11_2
  | tim_fix_tim15
  | tim_fix_tim16
  | tim_fix_lptim1
  | tim_fix_lptim2
  | tim_add_tim3
  | adc_fix_adc1_1
  | adc_fix_adc_com
  | adc_fix_adc_1
  | i2c_fix
  | pwr_fix
  | rtc_fix
  | uart_fix_lpuart1
  | uart_fix_uart4
  | uart_fix_usart1
  | uart_fix_usart3
  | gpio_add_ascr
deriving Repr, DecidableEq

/-- Semantics of the fix functions: each is `fn(&mut Device) -> Result<()>`
in the source, i.e. a fallible device transformation. -/
def FixSemantics : Type :=
  FixName → Device → Except SvdError Device

/-- Runs a sequence of fixes left to right, aborting at the first failure
(each call in the source is followed by `?`). -/
def runFixes (F : FixSemantics) : List FixName → Device → Except SvdError Device
  | [], d => .ok d
  | f :: fs, d => (F f d).bind (runFixes F fs)

/-- Call sequence of `patch_stm32f102` (`svd/src/lib.rs` lines 95-98). -/
def patch_stm32f102_steps : List FixName :=
  [.spi_fix_spi2_1]

/-- Call sequence of `patch_stm32f401` (`svd/src/lib.rs` lines 100-115). -/
def patch_stm32f401_steps : List FixName :=
  [.rcc_fix_2, .dma_fix_dma2_1, .tim_fix_tim1_1, .tim_fix_tim2_2, .tim_fix_tim2_3,
   .tim_fix_tim3_3, .tim_fix_tim5_1, .tim_fix_tim9_1, .tim_fix_tim10_1, .tim_fix_tim10_2,
   .tim_fix_tim11_1, .tim_fix_tim11_2, .adc_fix_adc1_1]

/-- Call sequence of `patch_stm32f405` (`svd/src/lib.rs` lines 117-135). -/
def patch_stm32f405_steps : List FixName :=
  [.rcc_fix_2, .rcc_fix_3, .dma_fix_dma2_1, .dma_fix_dma2_2, .tim_fix_tim1_1,
   .tim_fix_tim2_2, .tim_fix_tim2_3, .tim_fix_tim3_3, .tim_fix_tim5_1, .tim_fix_tim9_1,
   .tim_fix_tim10_1, .tim_fix_tim10_2, .tim_fix_tim11_1, .tim_fix_tim11_2,
   .adc_fix_adc_com, .adc_fix_adc1_1]

/-- Call sequence of `patch_stm32f407` (`svd/src/lib.rs` lines 137-155). -/
def patch_stm32f407_steps : List FixName :=
  [.rcc_fix_2, .rcc_fix_3, .dma_fix_dma2_1, .dma_fix_dma2_2, .tim_fix_tim1_1,
   .tim_fix_tim2_2, .tim_fix_tim2_3, .tim_fix_tim3_3, .tim_fix_tim5_1, .tim_fix_tim9_1,
   .tim_fix_tim10_1, .tim_fix_tim10_2, .tim_fix_tim11_1, .tim_fix_tim11_2,
   .adc_fix_adc_com, .adc_fix_adc1_1]

/-- Call sequence of `patch_stm32f410` (`svd/src/lib.rs` lines 157-167). -/
def patch_stm32f410_steps : List FixName :=
  [.rcc_fix_2, .dma_fix_dma2_1, .tim_fix_tim1_1, .tim_fix_tim5_1, .tim_fix_tim5_2,
   .tim_fix_tim9_1, .tim_fix_tim11_1, .adc_fix_adc1_1]

/-- Call sequence of `patch_stm32f411` (`svd/src/lib.rs` lines 169-184). -/
def patch_stm32f411_steps : List FixName :=
  [.rcc_fix_2, .dma_fix_dma2_1, .tim_fix_tim1_1, .tim_fix_tim2_2, .tim_fix_tim2_3,
   .tim_fix_tim3_3, .tim_fix_tim5_1, .tim_fix_tim9_1, .tim_fix_tim10_1, .tim_fix_tim10_2,
   .tim_fix_tim11_1, .tim_fix_tim11_2, .adc_fix_adc1_1]

/-- Call sequence of `patch_stm32f412` (`svd/src/lib.rs` lines 186-200). -/
def patch_stm32f412_steps : List FixName :=
  [.rcc_fix_2, .dma_fix_dma2_1, .tim_fix_tim1_1, .tim_fix_tim2_2, .tim_fix_tim2_3,
   .tim_fix_tim3_3, .tim_fix_tim5_1, .tim_fix_tim6, .tim_fix_tim9_1, .tim_fix_tim10_1,
   .tim_fix_tim11_1, .adc_fix_adc1_1]

/-- Call sequence of `patch_stm32f413` (`svd/src/lib.rs` lines 202-217). -/
def patch_stm32f413_steps : List FixName :=
  [.rcc_fix_2, .dma_fix_dma1, .exti_fix_exti_2, .tim_fix_tim1_1, .tim_fix_tim2_2,
   .tim_fix_tim2_3, .tim_fix_tim3_3, .tim_fix_tim5_1, .tim_fix_tim7, .tim_fix_tim9_1,
   .tim_fix_tim10_1, .tim_fix_tim11_1, .adc_fix_adc1_1]

/-- Call sequence of `patch_stm32f427` (`svd/src/lib.rs` lines 219-237). -/
def patch_stm32f427_steps : List FixName :=
  [.rcc_fix_2, .rcc_fix_3, .dma_fix_dma2_1, .dma_fix_dma2_2, .tim_fix_tim1_1,
   .tim_fix_tim2_2, .tim_fix_tim2_3, .tim_fix_tim3_3, .tim_fix_tim5_1, .tim_fix_tim9_1,
   .tim_fix_tim10_1, .tim_fix_tim10_2, .tim_fix_tim11_1, .tim_fix_tim11_2,
   .adc_fix_adc_com, .adc_fix_adc1_1]

/-- Call sequence of `patch_stm32f429` (`svd/src/lib.rs` lines 239-257). -/
def patch_stm32f429_steps : List FixName :=
  [.rcc_fix_2, .rcc_fix_3, .dma_fix_dma2_1, .dma_fix_dma2_2, .tim_fix_tim1_1,
   .tim_fix_tim2_2, .tim_fix_tim2_3, .tim_fix_tim3_3, .tim_fix_tim5_1, .tim_fix_tim9_1,
   .tim_fix_tim10_1, .tim_fix_tim10_2, .tim_fix_tim11_1, .tim_fix_tim11_2,
   .adc_fix_adc_com, .adc_fix_adc1_1]

/-- Call sequence of `patch_stm32f446` (`svd/src/lib.rs` lines 259-274). -/
def patch_stm32f446_steps : List FixName :=
  [.rcc_fix_2, .dma_fix_dma2_1, .dma_fix_dma2_2, .tim_fix_tim1_1, .tim_fix_tim2_2,
   .tim_fix_tim2_3, .tim_fix_tim3_3, .tim_fix_tim5_1, .tim_fix_tim9_1, .tim_fix_tim10_1,
   .tim_fix_tim11_1, .adc_fix_adc_com, .adc_fix_adc1_1]

/-- Call sequence of `patch_stm32f469` (`svd/src/lib.rs` lines 276-290). -/
def patch_stm32f469_steps : List FixName :=
  [.dma_fix_dma2_1, .dma_fix_dma2_2, .tim_fix_tim1_1, .tim_fix_tim2_2, .tim_fix_tim2_3,
   .tim_fix_tim3_3, .tim_fix_tim5_1, .tim_fix_tim9_1, .tim_fix_tim10_1, .tim_fix_tim11_1,
   .adc_fix_adc_com, .adc_fix_adc1_1]

/-- Call sequence of `patch_stm32l4x1` (`svd/src/lib.rs` lines 292-312). -/
def patch_stm32l4x1_steps : List FixName :=
  [.rcc_fix_4, .tim_fix_lptim1, .tim_fix_lptim2, .uart_fix_lpuart1, .rcc_fix_1,
   .spi_fix_spi2_2, .spi_fix_spi3_1, .tim_fix_tim1_1, .tim_fix_tim1_2, .tim_fix_tim16,
   .tim_fix_tim2_1, .tim_fix_tim2_3, .tim_fix_tim15, .tim_fix_tim3_1, .tim_fix_tim3_2,
   .uart_fix_uart4, .uart_fix_usart1, .uart_fix_usart3]

/-- Call sequence of `patch_stm32l4x2` (`svd/src/lib.rs` lines 314-335). -/
def patch_stm32l4x2_steps : List FixName :=
  [.rcc_fix_4, .i2c_fix, .tim_fix_lptim1, .tim_fix_lptim2, .uart_fix_lpuart1, .rcc_fix_1,
   .spi_fix_spi2_2, .spi_fix_spi3_1, .tim_fix_tim1_1, .tim_fix_tim1_2, .tim_fix_tim16,
   .tim_fix_tim2_1, .tim_fix_tim2_3, .tim_fix_tim15, .tim_fix_tim3_1, .tim_fix_tim3_2,
   .uart_fix_uart4, .uart_fix_usart1, .uart_fix_usart3]

/-- Call sequence of `patch_stm32l4x3` (`svd/src/lib.rs` lines 337-353). -/
def patch_stm32l4x3_steps : List FixName :=
  [.tim_add_tim3, .rcc_fix_4, .tim_fix_lptim1, .tim_fix_lptim2, .rcc_fix_1,
   .spi_fix_spi3_2, .tim_fix_tim1_1, .tim_fix_tim1_2, .tim_fix_tim16, .tim_fix_tim2_1,
   .tim_fix_tim2_3, .tim_fix_tim15, .tim_fix_tim3_1, .tim_fix_tim3_2]

/-- Call sequence of `patch_stm32l4x5` (`svd/src/lib.rs` lines 355-373); note
the final `gpio::add_ascr` step. -/
def patch_stm32l4x5_steps : List FixName :=
  [.rcc_fix_4, .exti_fix_exti_1, .tim_fix_lptim1, .tim_fix_lptim2, .rcc_fix_1,
   .rtc_fix, .spi_fix_spi3_2, .tim_fix_tim1_1, .tim_fix_tim1_2, .tim_fix_tim16,
   .tim_fix_tim2_1, .tim_fix_tim2_3, .tim_fix_tim15, .tim_fix_tim3_1, .tim_fix_tim8,
   .gpio_add_ascr]

/-- Call sequence of `patch_stm32l4x6` (`svd/src/lib.rs` lines 375-391); it
contains no GPIO step. -/
def patch_stm32l4x6_steps : List FixName :=
  [.rcc_fix_4, .exti_fix_exti_1, .tim_fix_lptim1, .tim_fix_lptim2, .rcc_fix_1,
   .spi_fix_spi3_2, .tim_fix_tim1_1, .tim_fix_tim1_2, .tim_fix_tim16, .tim_fix_tim2_1,
   .tim_fix_tim2_3, .tim_fix_tim15, .tim_fix_tim3_1, .tim_fix_tim8]

/-- Call sequence of `patch_stm32l4plus` (`svd/src/lib.rs` lines 393-411). -/
def patch_stm32l4plus_steps : List FixName :=
  [.dmamux_add_dmamux1, .rcc_fix_4, .exti_fix_exti_1, .tim_fix_lptim1, .tim_fix_lptim2,
   .pwr_fix, .spi_fix_spi3_2, .tim_fix_tim1_1, .tim_fix_tim1_2, .tim_fix_tim16,
   .tim_fix_tim2_1, .tim_fix_tim2_3, .tim_fix_tim15, .tim_fix_tim3_1, .tim_fix_tim8,
   .adc_fix_adc_1]

/-- Translation of `parse_svd` (`svd/src/lib.rs` lines 433-435): prepends the
`files/` directory to the file name and hands it to the external
`drone_svd::parse` (kept parametric). -/
def parse_svd (parse : String → Except SvdError Device) (path : String) :
    Except SvdError Device :=
  parse ("files/" ++ path)

/-- Translation of `svd_deserialize` (`svd/src/lib.rs` lines 61-93): dispatch
on the `stm32_mcu` configuration value; every supported key parses exactly one
SVD file and runs that variant's patch program; anything else bails out
(`UnsupportedVariant`) without touching any file. -/
def svd_deserialize (F : FixSemantics) (parse : String → Except SvdError Device)
    (mcu : String) : Except SvdError Device :=
  match mcu with
  | "stm32f100" => parse_svd parse "STM32F100.svd"
  | "stm32f101" => parse_svd parse "STM32F101.svd"
  | "stm32f102" => (parse_svd parse "STM32F102.svd").bind (runFixes F patch_stm32f102_steps)
  | "stm32f103" => parse_svd parse "STM32F103.svd"
  | "stm32f107" => parse_svd parse "STM32F107.svd"
  | "stm32f401" => (parse_svd parse "STM32F401.svd").bind (runFixes F patch_stm32f401_steps)
  | "stm32f405" => (parse_svd parse "STM32F405.svd").bind (runFixes F patch_stm32f405_steps)
  | "stm32f407" => (parse_svd parse "STM32F407.svd").bind (runFixes F patch_stm32f407_steps)
  | "stm32f410" => (parse_svd parse "STM32F410.svd").bind (runFixes F patch_stm32f410_steps)
  | "stm32f411" => (parse_svd parse "STM32F411.svd").bind (runFixes F patch_stm32f411_steps)
  | "stm32f412" => (parse_svd parse "STM32F412.svd").bind (runFixes F patch_stm32f412_steps)
  | "stm32f413" => (parse_svd parse "STM32F413.svd").bind (runFixes F patch_stm32f413_steps)
  | "stm32f427" => (parse_svd parse "STM32F427.svd").bind (runFixes F patch_stm32f427_steps)
  | "stm32f429" => (parse_svd parse "STM32F429.svd").bind (runFixes F patch_stm32f429_steps)
  | "stm32f446" => (parse_svd parse "STM32F446.svd").bind (runFixes F patch_stm32f446_steps)
  | "stm32f469" => (parse_svd parse "STM32F469.svd").bind (runFixes F patch_stm32f469_steps)
  | "stm32l4x1" => (parse_svd parse "STM32L4x1.svd").bind (runFixes F patch_stm32l4x1_steps)
  | "stm32l4x2" => (parse_svd parse "STM32L4x2.svd").bind (runFixes F patch_stm32l4x2_steps)
  | "stm32l4x3" => (parse_svd parse "STM32L4x3.svd").bind (runFixes F patch_stm32l4x3_steps)
  | "stm32l4x5" => (parse_svd parse "STM32L4x5.svd").bind (runFixes F patch_stm32l4x5_steps)
  | "stm32l4x6" => (parse_svd parse "STM32L4x6.svd").bind (runFixes F patch_stm32l4x6_steps)
  | "stm32l4r5" => (parse_svd parse "STM32L4R5.svd").bind (runFixes F patch_stm32l4plus_steps)
  | "stm32l4r7" => (parse_svd parse "STM32L4R7.svd").bind (runFixes F patch_stm32l4plus_steps)
  | "stm32l4r9" => (parse_svd parse "STM32L4R9.svd").bind (runFixes F patch_stm32l4plus_steps)
  | "stm32l4s5" => (parse_svd parse "STM32L4S5.svd").bind (runFixes F patch_stm32l4plus_steps)
  | "stm32l4s7" => (parse_svd parse "STM32L4S7.svd").bind (runFixes F patch_stm32l4plus_steps)
  | "stm32l4s9" => (parse_svd parse "STM32L4S9.svd").bind (runFixes F patch_stm32l4plus_steps)
  | _ => .error .unsupportedVariant

/-- Keys accepted by `svd_deserialize`, in match-arm order. -/
def supportedKeys : List String :=
  ["stm32f100", "stm32f101", "stm32f102", "stm32f103", "stm32f107",
   "stm32f401", "stm32f405", "stm32f407", "stm32f410", "stm32f411",
   "stm32f412", "stm32f413", "stm32f427", "stm32f429", "stm32f446",
   "stm32f469", "stm32l4x1", "stm32l4x2", "stm32l4x3", "stm32l4x5",
   "stm32l4x6", "stm32l4r5", "stm32l4r7", "stm32l4r9", "stm32l4s5",
   "stm32l4s7", "stm32l4s9"]

/-- SVD file parsed for each supported key (`none` for unsupported keys). -/
def svdFile (mcu : String) : Option String :=
  match mcu with
  | "stm32f100" => some "STM32F100.svd"
  | "stm32f101" => some "STM32F101.svd"
  | "stm32f102" => some "STM32F102.svd"
  | "stm32f103" => some "STM32F103.svd"
  | "stm32f107" => some "STM32F107.svd"
  | "stm32f401" => some "STM32F401.svd"
  | "stm32f405" => some "STM32F405.svd"
  | "stm32f407" => some "STM32F407.svd"
  | "stm32f410" => some "STM32F410.svd"
  | "stm32f411" => some "STM32F411.svd"
  | "stm32f412" => some "STM32F412.svd"
  | "stm32f413" => some "STM32F413.svd"
  | "stm32f427" => some "STM32F427.svd"
  | "stm32f429" => some "STM32F429.svd"
  | "stm32f446" => some "STM32F446.svd"
  | "stm32f469" => some "STM32F469.svd"
  | "stm32l4x1" => some "STM32L4x1.svd"
  | "stm32l4x2" => some "STM32L4x2.svd"
  | "stm32l4x3" => some "STM32L4x3.svd"
  | "stm32l4x5" => some "STM32L4x5.svd"
  | "stm32l4x6" => some "STM32L4x6.svd"
  | "stm32l4r5" => some "STM32L4R5.svd"
  | "stm32l4r7" => some "STM32L4R7.svd"
  | "stm32l4r9" => some "STM32L4R9.svd"
  | "stm32l4s5" => some "STM32L4S5.svd"
  | "stm32l4s7" => some "STM32L4S7.svd"
  | "stm32l4s9" => some "STM32L4S9.svd"
  | _ => none

/-- Exclusion Set: `REG_EXCLUDE` of `svd/src/lib.rs` (lines 26-35). -/
def REG_EXCLUDE : List String :=
  ["FPU", "FPU_CPACR", "ITM", "MPU", "NVIC", "SCB", "STK", "TPIU"]

/-- One emitted register/field definition (peripheral, register, fields). -/
structure RegDef where
  periph : String
  reg : String
  fields : List Field
deriving Repr, DecidableEq

/-- One emitted interrupt definition (owning peripheral, name, vector). -/
structure IrqDef where
  periph : String
  name : String
  value : Nat
deriving Repr, DecidableEq

/-- Modelled from the spec: `Device::generate_regs` of the external
`drone_svd` crate (`svd/src/lib.rs` only calls it).  Spec 4.4: emits a
definition for every register and field of every peripheral not in the
exclusion list; the pool arguments only partition the output across
compilation units (spec section 6) and do not change which entries exist,
so the model returns the emitted definitions. -/
def Device.generate_regs (d : Device) (exclude : List String)
    (_pool_number _pool_size : Nat) : List RegDef :=
  (d.periphs.filter (fun p => !exclude.contains p.name)).flatMap
    (fun p => p.regs.map (fun r => { periph := p.name, reg := r.name, fields := r.fields }))

/-- Modelled from the spec: `Device::generate_rest` of the external
`drone_svd` crate.  Spec 4.4 and the exclusion invariant of section 8: emits
the register token index (registers grouped by non-excluded peripheral) and
the interrupt definitions, never containing an entry for an excluded
peripheral. -/
def Device.generate_rest (d : Device) (exclude : List String)
    (_tokens_name : String) : List (String × List String) × List IrqDef :=
  ((d.periphs.filter (fun p => !exclude.contains p.name)).map
      (fun p => (p.name, p.regs.map Register.name)),
   (d.periphs.filter (fun p => !exclude.contains p.name)).flatMap
      (fun p => p.interrupts.map (fun i => { periph := p.name, name := i.name, value := i.value })))

/-- Translation of `generate_regs` (`svd/src/lib.rs` lines 38-44):
deserializes the device for the active variant and emits the register
definitions with the fixed `REG_EXCLUDE` list (output-file handling elided;
the emitted entries are returned). -/
def generate_regs (F : FixSemantics) (parse : String → Except SvdError Device)
    (mcu : String) (pool_number pool_size : Nat) : Except SvdError (List RegDef) :=
  (svd_deserialize F parse mcu).map
    (fun dev => dev.generate_regs REG_EXCLUDE pool_number pool_size)

/-- Translation of `generate_rest` (`svd/src/lib.rs` lines 47-59):
deserializes the device for the active variant and emits the register token
index and the interrupt definitions with the fixed `REG_EXCLUDE` list. -/
def generate_rest (F : FixSemantics) (parse : String → Except SvdError Device)
    (mcu : String) : Except SvdError (List (String × List String) × List IrqDef) :=
  (svd_deserialize F parse mcu).map
    (fun dev => dev.generate_rest REG_EXCLUDE "stm32_reg_tokens")

/-- Modelled from the spec: the Patch Operation Library primitives of spec
section 4.2 (the concrete call sequences live in the `svd/src` submodules,
which are not under `src/`; section 9 prescribes explicit patch-program
values as lists of operation descriptors). -/
inductive PatchOp where
  | copyRegister (periph_from periph_to reg_name : String)
  | copyField (periph_from periph_to reg_name field_name : String)
  | addRegister (periph : String) (reg : Register)
  | addField (periph reg_name : String) (f : Field)
  | removeRegister (periph reg_name : String)
  | resizeField (periph reg_name field_name : String) (width : Nat)
  | repositionField (periph reg_name field_name : String) (offset : Nat)
deriving Repr, DecidableEq

/-- Replaces a field value in place (identified by name). -/
def Register.setField (r : Register) (f : Field) : Register :=
  { r with fields := r.fields.map (fun g => if g.name = f.name then f else g) }

/-- Modelled from the spec: edits one field of a register and re-validates
the no-overlap invariant against the sibling fields (spec 4.2 for
`resize_field` / `reposition_field`). -/
def Register.editField (pname : String) (r : Register) (field_name : String)
    (edit : Field → Field) : Except SvdError Register :=
  match r.field field_name with
  | none => .error (.lookupError field_name)
  | some f =>
    let f2 := edit f
    if (r.fields.filter (fun g => g.name ≠ field_name)).any (fun g => g.overlaps f2) then
      .error (.fieldOverlap pname r.name field_name)
    else
      .ok (r.setField f2)

/-- Runs one patch operation; `copyRegister` and `copyField` have the
semantics of the source's `copy_reg` / `copy_field`, the rest follow spec
section 4.2. -/
def runOp (d : Device) : PatchOp → Except SvdError Device
  | .copyRegister pf pt rn => copy_reg d pf pt rn
  | .copyField pf pt rn fn => copy_field d pf pt rn fn
  | .addRegister pn r =>
    match d.periph pn with
    | none => .error (.lookupError pn)
    | some p => (p.add_reg r).map (fun p2 => d.setPeriph p2)
  | .addField pn rn f =>
    match d.periph pn with
    | none => .error (.lookupError pn)
    | some p =>
      match p.reg rn with
      | none => .error (.lookupError rn)
      | some r => (r.add_field pn f).map (fun r2 => d.setPeriph (p.setReg r2))
  | .removeRegister pn rn =>
    match d.periph pn with
    | none => .error (.lookupError pn)
    | some p =>
      match p.reg rn with
      | none => .error (.lookupError rn)
      | some _ => .ok (d.setPeriph { p with regs := p.regs.filter (fun r => r.name ≠ rn) })
  | .resizeField pn rn fn w =>
    match d.periph pn with
    | none => .error (.lookupError pn)
    | some p =>
      match p.reg rn with
      | none => .error (.lookupError rn)
      | some r =>
        (r.editField pn fn (fun f => { f with bitWidth := w })).map
          (fun r2 => d.setPeriph (p.setReg r2))
  | .repositionField pn rn fn off =>
    match d.periph pn with
    | none => .error (.lookupError pn)
    | some p =>
      match p.reg rn with
      | none => .error (.lookupError rn)
      | some r =>
        (r.editField pn fn (fun f => { f with bitOffset := off })).map
          (fun r2 => d.setPeriph (p.setReg r2))

/-- Runs a patch program (ordered operation list), aborting at the first
failure (spec section 7 propagation policy). -/
def runProgram (d : Device) : List PatchOp → Except SvdError Device
  | [] => .ok d
  | op :: ops => (runOp d op).bind (fun d2 => runProgram d2 ops)

/-- An operation is additive when it never removes a register; spec 4.3 calls
the variant patch programs strictly additive/corrective. -/
def PatchOp.additive : PatchOp → Bool
  | .removeRegister _ _ => false
  | _ => true

/-- Register `rn` is present in peripheral `pn` of the device. -/
def Device.regPresent (d : Device) (pn rn : String) : Bool :=
  ((d.periph pn).bind (fun p => p.reg rn)).isSome

/-- Marker traits used for fields in the `periph!` block of
`src/periph/gpio/lib.rs`. -/
inductive FieldKind where
  | rwRwRegFieldBit
  | rwRwRegFieldBits
  | rwRwRegFieldBitBand
  | woWoRegFieldBit
  | roRoRegFieldBit
deriving Repr, DecidableEq

/-- Marker traits used for registers in the `periph!` block. -/
inductive RegMarker where
  | rwReg
  | woReg
  | roReg
  | rwRegBitBand
deriving Repr, DecidableEq

/-- One field entry of the generic GPIO schema. -/
structure SchemaField where
  name : String
  kind : FieldKind
deriving Repr, DecidableEq

/-- One register entry of the generic GPIO schema: name, `cfg` guard
(`none` when the entry is unguarded), marker, `Shared` and `Option` flags,
fields. -/
structure SchemaReg where
  name : String
  guard : Option (List Mcu)
  marker : RegMarker
  shared : Bool
  optional : Bool
  fields : List SchemaField
deriving Repr, DecidableEq

/-- Guard listing every F4 and L4 key (the 22-element `cfg` list repeated for
`BUSSMENR`, `AFRL`, `AFRH`, `MODER`, `OSPEEDR`, `OTYPER`, `PUPDR` in
`src/periph/gpio/lib.rs`). -/
def cfgF4L4 : List Mcu :=
  [.stm32f401, .stm32f405, .stm32f407, .stm32f410, .stm32f411, .stm32f412,
   .stm32f413, .stm32f427, .stm32f429, .stm32f446, .stm32f469,
   .stm32l4x1, .stm32l4x2, .stm32l4x3, .stm32l4x5, .stm32l4x6,
   .stm32l4r5, .stm32l4r7, .stm32l4r9, .stm32l4s5, .stm32l4s7, .stm32l4s9]

/-- Guard listing the F1 keys (`CRL` / `CRH` in `src/periph/gpio/lib.rs`). -/
def cfgF1 : List Mcu :=
  [.stm32f100, .stm32f101, .stm32f102, .stm32f103, .stm32f107]

/-- Guard of the `ASCR` entries (`src/periph/gpio/lib.rs` lines 132-135 and
647-650). -/
def cfgAscr : List Mcu :=
  [.stm32l4x5, .stm32l4x6]

/-- Guard of the `BRR` entries (`src/periph/gpio/lib.rs` lines 155-168 and
672-685). -/
def cfgBrr : List Mcu :=
  [.stm32f100, .stm32f101, .stm32f102, .stm32f103, .stm32f107, .stm32l4x6,
   .stm32l4r5, .stm32l4r7, .stm32l4r9, .stm32l4s5, .stm32l4s7, .stm32l4s9]

/-- RCC section of the generic GPIO port schema (`periph!` block,
`src/periph/gpio/lib.rs` lines 22-59). -/
def rccSchema : List SchemaReg :=
  [{ name := "BUSENR", guard := none, marker := .rwRegBitBand, shared := true,
     optional := false, fields := [⟨"GPIOEN", .rwRwRegFieldBitBand⟩] },
   { name := "BUSRSTR", guard := none, marker := .rwRegBitBand, shared := true,
     optional := false, fields := [⟨"GPIORST", .rwRwRegFieldBitBand⟩] },
   { name := "BUSSMENR", guard := some cfgF4L4, marker := .rwRegBitBand, shared := true,
     optional := false, fields := [⟨"GPIOSMEN", .rwRwRegFieldBitBand⟩] }]

/-- GPIO section of the generic GPIO port schema (`periph!` block,
`src/periph/gpio/lib.rs` lines 61-505). -/
def gpioSchema : List SchemaReg :=
  [{ name := "AFRL", guard := some cfgF4L4, marker := .rwReg, shared := false,
     optional := false, fields :=
       [⟨"AFRL0", .rwRwRegFieldBits⟩, ⟨"AFRL1", .rwRwRegFieldBits⟩,
        ⟨"AFRL2", .rwRwRegFieldBits⟩, ⟨"AFRL3", .rwRwRegFieldBits⟩,
        ⟨"AFRL4", .rwRwRegFieldBits⟩, ⟨"AFRL5", .rwRwRegFieldBits⟩,
        ⟨"AFRL6", .rwRwRegFieldBits⟩, ⟨"AFRL7", .rwRwRegFieldBits⟩] },
   { name := "AFRH", guard := some cfgF4L4, marker := .rwReg, shared := false,
     optional := false, fields :=
       [⟨"AFRH8", .rwRwRegFieldBits⟩, ⟨"AFRH9", .rwRwRegFieldBits⟩,
        ⟨"AFRH10", .rwRwRegFieldBits⟩, ⟨"AFRH11", .rwRwRegFieldBits⟩,
        ⟨"AFRH12", .rwRwRegFieldBits⟩, ⟨"AFRH13", .rwRwRegFieldBits⟩,
        ⟨"AFRH14", .rwRwRegFieldBits⟩, ⟨"AFRH15", .rwRwRegFieldBits⟩] },
   { name := "ASCR", guard := some cfgAscr, marker := .rwReg, shared := false,
     optional := true, fields :=
       [⟨"ASC0", .rwRwRegFieldBit⟩, ⟨"ASC1", .rwRwRegFieldBit⟩,
        ⟨"ASC2", .rwRwRegFieldBit⟩, ⟨"ASC3", .rwRwRegFieldBit⟩,
        ⟨"ASC4", .rwRwRegFieldBit⟩, ⟨"ASC5", .rwRwRegFieldBit⟩,
        ⟨"ASC6", .rwRwRegFieldBit⟩, ⟨"ASC7", .rwRwRegFieldBit⟩,
        ⟨"ASC8", .rwRwRegFieldBit⟩, ⟨"ASC9", .rwRwRegFieldBit⟩,
        ⟨"ASC10", .rwRwRegFieldBit⟩, ⟨"ASC11", .rwRwRegFieldBit⟩,
        ⟨"ASC12", .rwRwRegFieldBit⟩, ⟨"ASC13", .rwRwRegFieldBit⟩,
        ⟨"ASC14", .rwRwRegFieldBit⟩, ⟨"ASC15", .rwRwRegFieldBit⟩] },
   { name := "BRR", guard := some cfgBrr, marker := .woReg, shared := false,
     optional := false, fields :=
       [⟨"BR0", .woWoRegFieldBit⟩, ⟨"BR1", .woWoRegFieldBit⟩,
        ⟨"BR2", .woWoRegFieldBit⟩, ⟨"BR3", .woWoRegFieldBit⟩,
        ⟨"BR4", .woWoRegFieldBit⟩, ⟨"BR5", .woWoRegFieldBit⟩,
        ⟨"BR6", .woWoRegFieldBit⟩, ⟨"BR7", .woWoRegFieldBit⟩,
        ⟨"BR8", .woWoRegFieldBit⟩, ⟨"BR9", .woWoRegFieldBit⟩,
        ⟨"BR10", .woWoRegFieldBit⟩, ⟨"BR11", .woWoRegFieldBit⟩,
        ⟨"BR12", .woWoRegFieldBit⟩, ⟨"BR13", .woWoRegFieldBit⟩,
        ⟨"BR14", .woWoRegFieldBit⟩, ⟨"BR15", .woWoRegFieldBit⟩] },
   { name := "BSRR", guard := none, marker := .woReg, shared := false,
     optional := false, fields :=
       [⟨"BR0", .woWoRegFieldBit⟩, ⟨"BR1", .woWoRegFieldBit⟩,
        ⟨"BR2", .woWoRegFieldBit⟩, ⟨"BR3", .woWoRegFieldBit⟩,
        ⟨"BR4", .woWoRegFieldBit⟩, ⟨"BR5", .woWoRegFieldBit⟩,
        ⟨"BR6", .woWoRegFieldBit⟩, ⟨"BR7", .woWoRegFieldBit⟩,
        ⟨"BR8", .woWoRegFieldBit⟩, ⟨"BR9", .woWoRegFieldBit⟩,
        ⟨"BR10", .woWoRegFieldBit⟩, ⟨"BR11", .woWoRegFieldBit⟩,
        ⟨"BR12", .woWoRegFieldBit⟩, ⟨"BR13", .woWoRegFieldBit⟩,
        ⟨"BR14", .woWoRegFieldBit⟩, ⟨"BR15", .woWoRegFieldBit⟩,
        ⟨"BS0", .woWoRegFieldBit⟩, ⟨"BS1", .woWoRegFieldBit⟩,
        ⟨"BS2", .woWoRegFieldBit⟩, ⟨"BS3", .woWoRegFieldBit⟩,
        ⟨"BS4", .woWoRegFieldBit⟩, ⟨"BS5", .woWoRegFieldBit⟩,
        ⟨"BS6", .woWoRegFieldBit⟩, ⟨"BS7", .woWoRegFieldBit⟩,
        ⟨"BS8", .woWoRegFieldBit⟩, ⟨"BS9", .woWoRegFieldBit⟩,
        ⟨"BS10", .woWoRegFieldBit⟩, ⟨"BS11", .woWoRegFieldBit⟩,
        ⟨"BS12", .woWoRegFieldBit⟩, ⟨"BS13", .woWoRegFieldBit⟩,
        ⟨"BS14", .woWoRegFieldBit⟩, ⟨"BS15", .woWoRegFieldBit⟩] },
   { name := "CRL", guard := some cfgF1, marker := .rwReg, shared := false,
     optional := false, fields :=
       [⟨"CNF0", .rwRwRegFieldBits⟩, ⟨"CNF1", .rwRwRegFieldBits⟩,
        ⟨"CNF2", .rwRwRegFieldBits⟩, ⟨"CNF3", .rwRwRegFieldBits⟩,
        ⟨"CNF4", .rwRwRegFieldBits⟩, ⟨"CNF5", .rwRwRegFieldBits⟩,
        ⟨"CNF6", .rwRwRegFieldBits⟩, ⟨"CNF7", .rwRwRegFieldBits⟩,
        ⟨"MODE0", .rwRwRegFieldBits⟩, ⟨"MODE1", .rwRwRegFieldBits⟩,
        ⟨"MODE2", .rwRwRegFieldBits⟩, ⟨"MODE3", .rwRwRegFieldBits⟩,
        ⟨"MODE4", .rwRwRegFieldBits⟩, ⟨"MODE5", .rwRwRegFieldBits⟩,
        ⟨"MODE6", .rwRwRegFieldBits⟩, ⟨"MODE7", .rwRwRegFieldBits⟩] },
   { name := "CRH", guard := some cfgF1, marker := .rwReg, shared := false,
     optional := false, fields :=
       [⟨"CNF8", .rwRwRegFieldBits⟩, ⟨"CNF9", .rwRwRegFieldBits⟩,
        ⟨"CNF10", .rwRwRegFieldBits⟩, ⟨"CNF11", .rwRwRegFieldBits⟩,
        ⟨"CNF12", .rwRwRegFieldBits⟩, ⟨"CNF13", .rwRwRegFieldBits⟩,
        ⟨"CNF14", .rwRwRegFieldBits⟩, ⟨"CNF15", .rwRwRegFieldBits⟩,
        ⟨"MODE8", .rwRwRegFieldBits⟩, ⟨"MODE9", .rwRwRegFieldBits⟩,
        ⟨"MODE10", .rwRwRegFieldBits⟩, ⟨"MODE11", .rwRwRegFieldBits⟩,
        ⟨"MODE12", .rwRwRegFieldBits⟩, ⟨"MODE13", .rwRwRegFieldBits⟩,
        ⟨"MODE14", .rwRwRegFieldBits⟩, ⟨"MODE15", .rwRwRegFieldBits⟩] },
   { name := "IDR", guard := none, marker := .roReg, shared := false,
     optional := false, fields :=
       [⟨"IDR0", .roRoRegFieldBit⟩, ⟨"IDR1", .roRoRegFieldBit⟩,
        ⟨"IDR2", .roRoRegFieldBit⟩, ⟨"IDR3", .roRoRegFieldBit⟩,
        ⟨"IDR4", .roRoRegFieldBit⟩, ⟨"IDR5", .roRoRegFieldBit⟩,
        ⟨"IDR6", .roRoRegFieldBit⟩, ⟨"IDR7", .roRoRegFieldBit⟩,
        ⟨"IDR8", .roRoRegFieldBit⟩, ⟨"IDR9", .roRoRegFieldBit⟩,
        ⟨"IDR10", .roRoRegFieldBit⟩, ⟨"IDR11", .roRoRegFieldBit⟩,
        ⟨"IDR12", .roRoRegFieldBit⟩, ⟨"IDR13", .roRoRegFieldBit⟩,
        ⟨"IDR14", .roRoRegFieldBit⟩, ⟨"IDR15", .roRoRegFieldBit⟩] },
   { name := "LCKR", guard := none, marker := .rwReg, shared := false,
     optional := false, fields :=
       [⟨"LCK0", .rwRwRegFieldBit⟩, ⟨"LCK1", .rwRwRegFieldBit⟩,
        ⟨"LCK2", .rwRwRegFieldBit⟩, ⟨"LCK3", .rwRwRegFieldBit⟩,
        ⟨"LCK4", .rwRwRegFieldBit⟩, ⟨"LCK5", .rwRwRegFieldBit⟩,
        ⟨"LCK6", .rwRwRegFieldBit⟩, ⟨"LCK7", .rwRwRegFieldBit⟩,
        ⟨"LCK8", .rwRwRegFieldBit⟩, ⟨"LCK9", .rwRwRegFieldBit⟩,
        ⟨"LCK10", .rwRwRegFieldBit⟩, ⟨"LCK11", .rwRwRegFieldBit⟩,
        ⟨"LCK12", .rwRwRegFieldBit⟩, ⟨"LCK13", .rwRwRegFieldBit⟩,
        ⟨"LCK14", .rwRwRegFieldBit⟩, ⟨"LCK15", .rwRwRegFieldBit⟩,
        ⟨"LCKK", .rwRwRegFieldBit⟩] },
   { name := "MODER", guard := some cfgF4L4, marker := .rwReg, shared := false,
     optional := false, fields :=
       [⟨"MODER0", .rwRwRegFieldBits⟩, ⟨"MODER1", .rwRwRegFieldBits⟩,
        ⟨"MODER2", .rwRwRegFieldBits⟩, ⟨"MODER3", .rwRwRegFieldBits⟩,
        ⟨"MODER4", .rwRwRegFieldBits⟩, ⟨"MODER5", .rwRwRegFieldBits⟩,
        ⟨"MODER6", .rwRwRegFieldBits⟩, ⟨"MODER7", .rwRwRegFieldBits⟩,
        ⟨"MODER8", .rwRwRegFieldBits⟩, ⟨"MODER9", .rwRwRegFieldBits⟩,
        ⟨"MODER10", .rwRwRegFieldBits⟩, ⟨"MODER11", .rwRwRegFieldBits⟩,
        ⟨"MODER12", .rwRwRegFieldBits⟩, ⟨"MODER13", .rwRwRegFieldBits⟩,
        ⟨"MODER14", .rwRwRegFieldBits⟩, ⟨"MODER15", .rwRwRegFieldBits⟩] },
   { name := "ODR", guard := none, marker := .rwReg, shared := false,
     optional := false, fields :=
       [⟨"ODR0", .rwRwRegFieldBit⟩, ⟨"ODR1", .rwRwRegFieldBit⟩,
        ⟨"ODR2", .rwRwRegFieldBit⟩, ⟨"ODR3", .rwRwRegFieldBit⟩,
        ⟨"ODR4", .rwRwRegFieldBit⟩, ⟨"ODR5", .rwRwRegFieldBit⟩,
        ⟨"ODR6", .rwRwRegFieldBit⟩, ⟨"ODR7", .rwRwRegFieldBit⟩,
        ⟨"ODR8", .rwRwRegFieldBit⟩, ⟨"ODR9", .rwRwRegFieldBit⟩,
        ⟨"ODR10", .rwRwRegFieldBit⟩, ⟨"ODR11", .rwRwRegFieldBit⟩,
        ⟨"ODR12", .rwRwRegFieldBit⟩, ⟨"ODR13", .rwRwRegFieldBit⟩,
        ⟨"ODR14", .rwRwRegFieldBit⟩, ⟨"ODR15", .rwRwRegFieldBit⟩] },
   { name := "OSPEEDR", guard := some cfgF4L4, marker := .rwReg, shared := false,
     optional := false, fields :=
       [⟨"OSPEEDR0", .rwRwRegFieldBits⟩, ⟨"OSPEEDR1", .rwRwRegFieldBits⟩,
        ⟨"OSPEEDR2", .rwRwRegFieldBits⟩, ⟨"OSPEEDR3", .rwRwRegFieldBits⟩,
        ⟨"OSPEEDR4", .rwRwRegFieldBits⟩, ⟨"OSPEEDR5", .rwRwRegFieldBits⟩,
        ⟨"OSPEEDR6", .rwRwRegFieldBits⟩, ⟨"OSPEEDR7", .rwRwRegFieldBits⟩,
        ⟨"OSPEEDR8", .rwRwRegFieldBits⟩, ⟨"OSPEEDR9", .rwRwRegFieldBits⟩,
        ⟨"OSPEEDR10", .rwRwRegFieldBits⟩, ⟨"OSPEEDR11", .rwRwRegFieldBits⟩,
        ⟨"OSPEEDR12", .rwRwRegFieldBits⟩, ⟨"OSPEEDR13", .rwRwRegFieldBits⟩,
        ⟨"OSPEEDR14", .rwRwRegFieldBits⟩, ⟨"OSPEEDR15", .rwRwRegFieldBits⟩] },
   { name := "OTYPER", guard := some cfgF4L4, marker := .rwReg, shared := false,
     optional := false, fields :=
       [⟨"OT0", .rwRwRegFieldBit⟩, ⟨"OT1", .rwRwRegFieldBit⟩,
        ⟨"OT2", .rwRwRegFieldBit⟩, ⟨"OT3", .rwRwRegFieldBit⟩,
        ⟨"OT4", .rwRwRegFieldBit⟩, ⟨"OT5", .rwRwRegFieldBit⟩,
        ⟨"OT6", .rwRwRegFieldBit⟩, ⟨"OT7", .rwRwRegFieldBit⟩,
        ⟨"OT8", .rwRwRegFieldBit⟩, ⟨"OT9", .rwRwRegFieldBit⟩,
        ⟨"OT10", .rwRwRegFieldBit⟩, ⟨"OT11", .rwRwRegFieldBit⟩,
        ⟨"OT12", .rwRwRegFieldBit⟩, ⟨"OT13", .rwRwRegFieldBit⟩,
        ⟨"OT14", .rwRwRegFieldBit⟩, ⟨"OT15", .rwRwRegFieldBit⟩] },
   { name := "PUPDR", guard := some cfgF4L4, marker := .rwReg, shared := false,
     optional := false, fields :=
       [⟨"PUPDR0", .rwRwRegFieldBits⟩, ⟨"PUPDR1", .rwRwRegFieldBits⟩,
        ⟨"PUPDR2", .rwRwRegFieldBits⟩, ⟨"PUPDR3", .rwRwRegFieldBits⟩,
        ⟨"PUPDR4", .rwRwRegFieldBits⟩, ⟨"PUPDR5", .rwRwRegFieldBits⟩,
        ⟨"PUPDR6", .rwRwRegFieldBits⟩, ⟨"PUPDR7", .rwRwRegFieldBits⟩,
        ⟨"PUPDR8", .rwRwRegFieldBits⟩, ⟨"PUPDR9", .rwRwRegFieldBits⟩,
        ⟨"PUPDR10", .rwRwRegFieldBits⟩, ⟨"PUPDR11", .rwRwRegFieldBits⟩,
        ⟨"PUPDR12", .rwRwRegFieldBits⟩, ⟨"PUPDR13", .rwRwRegFieldBits⟩,
        ⟨"PUPDR14", .rwRwRegFieldBits⟩, ⟨"PUPDR15", .rwRwRegFieldBits⟩] }]

/-- A schema entry is active on a variant when its guard (if any) lists the
variant. -/
def schemaActive (v : Mcu) (r : SchemaReg) : Bool :=
  match r.guard with
  | none => true
  | some g => g.contains v

/-- Expansion of the generic GPIO schema for one variant: the entries whose
guard matches. -/
def expandGpio (v : Mcu) : List SchemaReg :=
  gpioSchema.filter (schemaActive v)

/-- One field token of an expanded port: token name and the svd field it
binds to. -/
structure FieldToken where
  token : String
  svdField : String
deriving Repr, DecidableEq

/-- One register token of an expanded port: token name, the svd register it
binds to, `Shared` / `Option` flags and field tokens. -/
structure RegToken where
  token : String
  svdReg : String
  shared : Bool
  optional : Bool
  fields : List FieldToken
deriving Repr, DecidableEq

/-- Arguments of one `map_gpio_port!` invocation
(`src/periph/gpio/lib.rs` lines 509-522): the port type, the three RCC bus
register names, the GPIO peripheral instance name, the three per-port RCC
field names, and whether the `$ascr` repetition is non-empty. -/
structure GpioPortArgs where
  port_ty : String
  busenr : String
  busrstr : String
  bussmenr : String
  gpio : String
  gpioen : String
  gpiorst : String
  gpiosmen : String
  ascr : Bool
deriving Repr, DecidableEq

/-- Result of expanding `map_gpio_port` for one variant: the port type
identity, the RCC register tokens, the GPIO peripheral the port binds to and
its register tokens. -/
structure GpioPortTokens where
  port_ty : String
  rccTokens : List RegToken
  gpioPeriph : String
  gpioTokens : List RegToken
deriving Repr, DecidableEq

/-- Makes the per-bit field token list `pre0 .. pre15`, each token bound to
the identically named svd field (as every GPIO block in the macro body binds
`NAMEi { NAMEi }`). -/
def bitTokens (pre : String) : List FieldToken :=
  (List.range 16).map (fun i => ⟨pre ++ toString i, pre ++ toString i⟩)

/-- RCC section of the `map_gpio_port` macro body
(`src/periph/gpio/lib.rs` lines 536-573). -/
def rccPortTokens (v : Mcu) (a : GpioPortArgs) : List RegToken :=
  [{ token := "BUSENR", svdReg := a.busenr, shared := true, optional := false,
     fields := [⟨"GPIOEN", a.gpioen⟩] },
   { token := "BUSRSTR", svdReg := a.busrstr, shared := true, optional := false,
     fields := [⟨"GPIORST", a.gpiorst⟩] }]
  ++ (if cfgF4L4.contains v then
      [{ token := "BUSSMENR", svdReg := a.bussmenr, shared := true, optional := false,
         fields := [⟨"GPIOSMEN", a.gpiosmen⟩] }]
      else [])

/-- GPIO section of the `map_gpio_port` macro body
(`src/periph/gpio/lib.rs` lines 575-1022).  It depends only on the variant
and on whether the invocation passes a non-empty `$ascr`; an invocation with
an empty `$ascr` expands the `ASCR` block with no register binding, modelled
as an entry with empty binding and no fields. -/
def gpioPortTokens (v : Mcu) (ascr : Bool) : List RegToken :=
  (if cfgF4L4.contains v then
    [{ token := "AFRL", svdReg := "AFRL", shared := false, optional := false,
       fields := (List.range 8).map (fun i => ⟨"AFRL" ++ toString i, "AFRL" ++ toString i⟩) },
     { token := "AFRH", svdReg := "AFRH", shared := false, optional := false,
       fields := (List.range 8).map
         (fun i => ⟨"AFRH" ++ toString (8 + i), "AFRH" ++ toString (8 + i)⟩) }]
   else [])
  ++ (if cfgAscr.contains v then
      [if ascr then
        { token := "ASCR", svdReg := "ASCR", shared := false, optional := true,
          fields := bitTokens "ASC" }
       else
        { token := "ASCR", svdReg := "", shared := false, optional := false, fields := [] }]
      else [])
  ++ (if cfgBrr.contains v then
      [{ token := "BRR", svdReg := "BRR", shared := false, optional := false,
         fields := bitTokens "BR" }]
      else [])
  ++ [{ token := "BSRR", svdReg := "BSRR", shared := false, optional := false,
        fields := bitTokens "BR" ++ bitTokens "BS" }]
  ++ (if cfgF1.contains v then
      [{ token := "CRL", svdReg := "CRL", shared := false, optional := false,
         fields := (List.range 8).map (fun i => ⟨"CNF" ++ toString i, "CNF" ++ toString i⟩)
           ++ (List.range 8).map (fun i => ⟨"MODE" ++ toString i, "MODE" ++ toString i⟩) },
       { token := "CRH", svdReg := "CRH", shared := false, optional := false,
         fields := (List.range 8).map
             (fun i => ⟨"CNF" ++ toString (8 + i), "CNF" ++ toString (8 + i)⟩)
           ++ (List.range 8).map
             (fun i => ⟨"MODE" ++ toString (8 + i), "MODE" ++ toString (8 + i)⟩) }]
      else [])
  ++ [{ token := "IDR", svdReg := "IDR", shared := false, optional := false,
        fields := bitTokens "IDR" },
      { token := "LCKR", svdReg := "LCKR", shared := false, optional := false,
        fields := bitTokens "LCK" ++ [⟨"LCKK", "LCKK"⟩] }]
  ++ (if cfgF4L4.contains v then
      [{ token := "MODER", svdReg := "MODER", shared := false, optional := false,
         fields := bitTokens "MODER" }]
      else [])
  ++ [{ token := "ODR", svdReg := "ODR", shared := false, optional := false,
        fields := bitTokens "ODR" }]
  ++ (if cfgF4L4.contains v then
      [{ token := "OSPEEDR", svdReg := "OSPEEDR", shared := false, optional := false,
         fields := bitTokens "OSPEEDR" },
       { token := "OTYPER", svdReg := "OTYPER", shared := false, optional := false,
         fields := bitTokens "OT" },
       { token := "PUPDR", svdReg := "PUPDR", shared := false, optional := false,
         fields := bitTokens "PUPDR" }]
      else [])

/-- Expansion of one `map_gpio_port!` invocation on one variant. -/
def map_gpio_port (a : GpioPortArgs) (v : Mcu) : GpioPortTokens :=
  { port_ty := a.port_ty,
    rccTokens := rccPortTokens v a,
    gpioPeriph := a.gpio,
    gpioTokens := gpioPortTokens v a.ascr }

/-- Guard of the L4 port A-E and H invocations
(`src/periph/gpio/lib.rs` lines 1168-1180). -/
def cfgL4 : List Mcu :=
  [.stm32l4x1, .stm32l4x2, .stm32l4x3, .stm32l4x5, .stm32l4x6,
   .stm32l4r5, .stm32l4r7, .stm32l4r9, .stm32l4s5, .stm32l4s7, .stm32l4s9]

/-- Guard of the L4 port F and G invocations (lines 1308-1317). -/
def cfgL4FG : List Mcu :=
  [.stm32l4x5, .stm32l4x6, .stm32l4r5, .stm32l4r7, .stm32l4r9,
   .stm32l4s5, .stm32l4s7, .stm32l4s9]

/-- Guard of the L4 port I invocation (lines 1386-1394). -/
def cfgL4I : List Mcu :=
  [.stm32l4x6, .stm32l4r5, .stm32l4r7, .stm32l4r9, .stm32l4s5,
   .stm32l4s7, .stm32l4s9]

/-- Guard of the F4 port A-C and H invocations (lines 1410-1422). -/
def cfgF4 : List Mcu :=
  [.stm32f401, .stm32f405, .stm32f407, .stm32f410, .stm32f411, .stm32f412,
   .stm32f413, .stm32f427, .stm32f429, .stm32f446, .stm32f469]

/-- Guard of the F4 port D and E invocations (lines 1494-1505). -/
def cfgF4DE : List Mcu :=
  [.stm32f401, .stm32f405, .stm32f407, .stm32f411, .stm32f412, .stm32f413,
   .stm32f427, .stm32f429, .stm32f446, .stm32f469]

/-- Guard of the F4 port F and G invocations (lines 1548-1557). -/
def cfgF4FG : List Mcu :=
  [.stm32f405, .stm32f407, .stm32f412, .stm32f413, .stm32f427, .stm32f429,
   .stm32f446, .stm32f469]

/-- Guard of the F4 port I, J and K invocations (lines 1626-1632). -/
def cfgF4IJK : List Mcu :=
  [.stm32f405, .stm32f407, .stm32f427, .stm32f429, .stm32f469]

/-- All `map_gpio_port!` invocations of `src/periph/gpio/lib.rs`
(lines 1027-1690), each with the `cfg` guard of the invocation. -/
def portInstantiations : List (List Mcu × GpioPortArgs) :=
  [(cfgF1, { port_ty := "GpioA", busenr := "APB2ENR", busrstr := "APB2RSTR",
             bussmenr := "APB2SMENR", gpio := "GPIOA", gpioen := "IOPAEN",
             gpiorst := "IOPARST", gpiosmen := "IOPASMEN", ascr := false }),
   (cfgF1, { port_ty := "GpioB", busenr := "APB2ENR", busrstr := "APB2RSTR",
             bussmenr := "APB2SMENR", gpio := "GPIOB", gpioen := "IOPBEN",
             gpiorst := "IOPBRST", gpiosmen := "IOPBSMEN", ascr := false }),
   (cfgF1, { port_ty := "GpioC", busenr := "APB2ENR", busrstr := "APB2RSTR",
             bussmenr := "APB2SMENR", gpio := "GPIOC", gpioen := "IOPCEN",
             gpiorst := "IOPCRST", gpiosmen := "IOPCSMEN", ascr := false }),
   (cfgF1, { port_ty := "GpioD", busenr := "APB2ENR", busrstr := "APB2RSTR",
             bussmenr := "APB2SMENR", gpio := "GPIOD", gpioen := "IOPDEN",
             gpiorst := "IOPDRST", gpiosmen := "IOPDSMEN", ascr := false }),
   ([.stm32f100, .stm32f101, .stm32f103, .stm32f107],
    { port_ty := "GpioE", busenr := "APB2ENR", busrstr := "APB2RSTR",
      bussmenr := "APB2SMENR", gpio := "GPIOE", gpioen := "IOPEEN",
      gpiorst := "IOPERST", gpiosmen := "IOPESMEN", ascr := false }),
   ([.stm32f100, .stm32f101, .stm32f103],
    { port_ty := "GpioF", busenr := "APB2ENR", busrstr := "APB2RSTR",
      bussmenr := "APB2SMENR", gpio := "GPIOF", gpioen := "IOPFEN",
      gpiorst := "IOPFRST", gpiosmen := "IOPFSMEN", ascr := false }),
   ([.stm32f100, .stm32f101, .stm32f103],
    { port_ty := "GpioG", busenr := "APB2ENR", busrstr := "APB2RSTR",
      bussmenr := "APB2SMENR", gpio := "GPIOG", gpioen := "IOPGEN",
      gpiorst := "IOPGRST", gpiosmen := "IOPGSMEN", ascr := false }),
   (cfgL4, { port_ty := "GpioA", busenr := "AHB2ENR", busrstr := "AHB2RSTR",
             bussmenr := "AHB2SMENR", gpio := "GPIOA", gpioen := "GPIOAEN",
             gpiorst := "GPIOARST", gpiosmen := "GPIOASMEN", ascr := true }),
   (cfgL4, { port_ty := "GpioB", busenr := "AHB2ENR", busrstr := "AHB2RSTR",
             bussmenr := "AHB2SMENR", gpio := "GPIOB", gpioen := "GPIOBEN",
             gpiorst := "GPIOBRST", gpiosmen := "GPIOBSMEN", ascr := true }),
   (cfgL4, { port_ty := "GpioC", busenr := "AHB2ENR", busrstr := "AHB2RSTR",
             bussmenr := "AHB2SMENR", gpio := "GPIOC", gpioen := "GPIOCEN",
             gpiorst := "GPIOCRST", gpiosmen := "GPIOCSMEN", ascr := true }),
   (cfgL4, { port_ty := "GpioD", busenr := "AHB2ENR", busrstr := "AHB2RSTR",
             bussmenr := "AHB2SMENR", gpio := "GPIOD", gpioen := "GPIODEN",
             gpiorst := "GPIODRST", gpiosmen := "GPIODSMEN", ascr := true }),
   (cfgL4, { port_ty := "GpioE", busenr := "AHB2ENR", busrstr := "AHB2RSTR",
             bussmenr := "AHB2SMENR", gpio := "GPIOE", gpioen := "GPIOEEN",
             gpiorst := "GPIOERST", gpiosmen := "GPIOESMEN", ascr := true }),
   (cfgL4FG, { port_ty := "GpioF", busenr := "AHB2ENR", busrstr := "AHB2RSTR",
               bussmenr := "AHB2SMENR", gpio := "GPIOF", gpioen := "GPIOFEN",
               gpiorst := "GPIOFRST", gpiosmen := "GPIOFSMEN", ascr := true }),
   (cfgL4FG, { port_ty := "GpioG", busenr := "AHB2ENR", busrstr := "AHB2RSTR",
               bussmenr := "AHB2SMENR", gpio := "GPIOG", gpioen := "GPIOGEN",
               gpiorst := "GPIOGRST", gpiosmen := "GPIOGSMEN", ascr := true }),
   (cfgL4, { port_ty := "GpioH", busenr := "AHB2ENR", busrstr := "AHB2RSTR",
             bussmenr := "AHB2SMENR", gpio := "GPIOH", gpioen := "GPIOHEN",
             gpiorst := "GPIOHRST", gpiosmen := "GPIOHSMEN", ascr := true }),
   (cfgL4I, { port_ty := "GpioI", busenr := "AHB2ENR", busrstr := "AHB2RSTR",
              bussmenr := "AHB2SMENR", gpio := "GPIOI", gpioen := "GPIOIEN",
              gpiorst := "GPIOIRST", gpiosmen := "GPIOISMEN", ascr := false }),
   (cfgF4, { port_ty := "GpioA", busenr := "AHB1ENR", busrstr := "AHB1RSTR",
             bussmenr := "AHB1LPENR", gpio := "GPIOA", gpioen := "GPIOAEN",
             gpiorst := "GPIOARST", gpiosmen := "GPIOALPEN", ascr := false }),
   (cfgF4, { port_ty := "GpioB", busenr := "AHB1ENR", busrstr := "AHB1RSTR",
             bussmenr := "AHB1LPENR", gpio := "GPIOB", gpioen := "GPIOBEN",
             gpiorst := "GPIOBRST", gpiosmen := "GPIOBLPEN", ascr := false }),
   (cfgF4, { port_ty := "GpioC", busenr := "AHB1ENR", busrstr := "AHB1RSTR",
             bussmenr := "AHB1LPENR", gpio := "GPIOC", gpioen := "GPIOCEN",
             gpiorst := "GPIOCRST", gpiosmen := "GPIOCLPEN", ascr := false }),
   (cfgF4DE, { port_ty := "GpioD", busenr := "AHB1ENR", busrstr := "AHB1RSTR",
               bussmenr := "AHB1LPENR", gpio := "GPIOD", gpioen := "GPIODEN",
               gpiorst := "GPIODRST", gpiosmen := "GPIODLPEN", ascr := false }),
   (cfgF4DE, { port_ty := "GpioE", busenr := "AHB1ENR", busrstr := "AHB1RSTR",
               bussmenr := "AHB1LPENR", gpio := "GPIOE", gpioen := "GPIOEEN",
               gpiorst := "GPIOERST", gpiosmen := "GPIOELPEN", ascr := false }),
   (cfgF4FG, { port_ty := "GpioF", busenr := "AHB1ENR", busrstr := "AHB1RSTR",
               bussmenr := "AHB1LPENR", gpio := "GPIOF", gpioen := "GPIOFEN",
               gpiorst := "GPIOFRST", gpiosmen := "GPIOFLPEN", ascr := false }),
   (cfgF4FG, { port_ty := "GpioG", busenr := "AHB1ENR", busrstr := "AHB1RSTR",
               bussmenr := "AHB1LPENR", gpio := "GPIOG", gpioen := "GPIOGEN",
               gpiorst := "GPIOGRST", gpiosmen := "GPIOGLPEN", ascr := false }),
   (cfgF4, { port_ty := "GpioH", busenr := "AHB1ENR", busrstr := "AHB1RSTR",
             bussmenr := "AHB1LPENR", gpio := "GPIOH", gpioen := "GPIOHEN",
             gpiorst := "GPIOHRST", gpiosmen := "GPIOHLPEN", ascr := false }),
   (cfgF4IJK, { port_ty := "GpioI", busenr := "AHB1ENR", busrstr := "AHB1RSTR",
                bussmenr := "AHB1LPENR", gpio := "GPIOI", gpioen := "GPIOIEN",
                gpiorst := "GPIOIRST", gpiosmen := "GPIOILPEN", ascr := false }),
   (cfgF4IJK, { port_ty := "GpioJ", busenr := "AHB1ENR", busrstr := "AHB1RSTR",
                bussmenr := "AHB1LPENR", gpio := "GPIOJ", gpioen := "GPIOJEN",
                gpiorst := "GPIOJRST", gpiosmen := "GPIOJLPEN", ascr := false }),
   (cfgF4IJK, { port_ty := "GpioK", busenr := "AHB1ENR", busrstr := "AHB1RSTR",
                bussmenr := "AHB1LPENR", gpio := "GPIOK", gpioen := "GPIOKEN",
                gpiorst := "GPIOKRST", gpiosmen := "GPIOKLPEN", ascr := false })]

/-- Port instantiations active on a variant. -/
def activePorts (v : Mcu) : List GpioPortArgs :=
  (portInstantiations.filter (fun x => x.1.contains v)).map (fun x => x.2)

/-- Active instantiation of a given port type on a variant, when any. -/
def activeInstance (v : Mcu) (ty : String) : Option GpioPortArgs :=
  (portInstantiations.find? (fun x => x.1.contains v && x.2.port_ty = ty)).map (fun x => x.2)

/-- Modelled from the spec: the `ASCR` register added by `gpio::add_ascr` of
`svd/src/gpio.rs` (not under `src/`): single-bit analog-switch-control fields
`ASC0` .. `ASC15` at bit positions 0..15. -/
def ascrRegister : Register :=
  { name := "ASCR",
    fields := (List.range 16).map
      (fun i => { name := "ASC" ++ toString i, bitOffset := i, bitWidth := 1 }) }

/-- Modelled from the spec: `gpio::add_ascr` of `svd/src/gpio.rs` (not under
`src/`), restricted to one named GPIO port: adds the `ASCR` register to that
port peripheral through the accessor's `add_register`. -/
def add_ascr (d : Device) (port : String) : Except SvdError Device :=
  runOp d (.addRegister port ascrRegister)

/-- The (register name, field name, bit position, bit width) triples of a
register, as compared by the schema/pipeline agreement property. -/
def regTriples (r : Register) : List (String × String × Nat × Nat) :=
  r.fields.map (fun f => (r.name, f.name, f.bitOffset, f.bitWidth))

/-- Triples the GPIO schema's `ASCR` entry stands for: its field names with
the single-bit layout its `RwRwRegFieldBit` markers denote. -/
def schemaAscrTriples : List (String × String × Nat × Nat) :=
  (List.range 16).map (fun i => ("ASCR", "ASC" ++ toString i, i, 1))

/-- The `ASCR` register of `GPIOA` of a device, when present. -/
def gpioAscrOf (d : Device) : Option Register :=
  (d.periph "GPIOA").bind (fun p => p.reg "ASCR")

/-- Fix semantics leaving every device unchanged (used to exercise the
dispatch skeleton at concrete inputs). -/
def trivialFixes : FixSemantics :=
  fun _ d => .ok d

/-- Parse semantics returning an empty device for every path. -/
def constParse : String → Except SvdError Device :=
  fun _ => .ok { periphs := [] }

theorem Device.periph_name {d : Device} {n : String} {p : Peripheral}
    (h : d.periph n = some p) : p.name = n := by
  simpa using List.find?_some h

theorem Peripheral.reg_name {p : Peripheral} {n : String} {r : Register}
    (h : p.reg n = some r) : r.name = n := by
  simpa using List.find?_some h

theorem Register.field_name {r : Register} {n : String} {f : Field}
    (h : r.field n = some f) : f.name = n := by
  simpa using List.find?_some h

theorem find?_map_congr {α : Type} (repl : α → α) (pred : α → Bool)
    (hpred : ∀ a, pred (repl a) = pred a) (l : List α) :
    (l.map repl).find? pred = (l.find? pred).map repl := by
  induction l with
  | nil => rfl
  | cons hd tl ih =>
    simp only [List.map_cons, List.find?_cons, hpred]
    cases h : pred hd <;> simp [h, ih]

theorem Device.setPeriph_periph (d : Device) (q : Peripheral) (n : String) :
    (d.setPeriph q).periph n
      = (d.periph n).map (fun p => if p.name = q.name then q else p) := by
  unfold Device.setPeriph Device.periph
  refine find?_map_congr _ _ (fun a => ?_) d.periphs
  by_cases hq : a.name = q.name <;> simp [hq]

theorem Peripheral.setReg_reg (p : Peripheral) (r : Register) (n : String) :
    (p.setReg r).reg n
      = (p.reg n).map (fun s => if s.name = r.name then r else s) := by
  unfold Peripheral.setReg Peripheral.reg
  refine find?_map_congr _ _ (fun a => ?_) p.regs
  by_cases hq : a.name = r.name <;> simp [hq]

theorem Peripheral.reg_append (p : Peripheral) (rs : List Register) (n : String) :
    (Peripheral.mk p.name (p.regs ++ rs) p.interrupts).reg n
      = ((p.reg n).or (rs.find? (fun r => r.name = n))) := by
  unfold Peripheral.reg
  exact List.find?_append

theorem except_bind_ok {ε α β : Type} {e : Except ε α} {f : α → Except ε β} {x : β}
    (h : e.bind f = .ok x) : ∃ y, e = .ok y ∧ f y = .ok x := by
  cases e with
  | error z => simp [Except.bind] at h
  | ok y => exact ⟨y, rfl, h⟩

/-- A two-bit mode field at the bottom of a `MODER` register. -/
def moderField0 : Field :=
  { name := "MODER0", bitOffset := 0, bitWidth := 2 }

/-- Device of the spec's scenario: `GPIOA` and `GPIOB` both carry a `MODER`
register that already defines `MODER0`. -/
def moderScenarioDev : Device :=
  { periphs :=
      [{ name := "GPIOA", regs := [{ name := "MODER", fields := [moderField0] }] },
       { name := "GPIOB", regs := [{ name := "MODER", fields := [moderField0] }] }] }

/-- Device where only `GPIOA` carries `MODER` (fresh copy target `GPIOB`). -/
def moderFreshDev : Device :=
  { periphs :=
      [{ name := "GPIOA", regs := [{ name := "MODER", fields := [moderField0] }] },
       { name := "GPIOB", regs := [] }] }

/-- C1: `copy_register` clones the named register, with all of its fields,
from the source peripheral into the target peripheral, and fails with
`DuplicateRegister` whenever the target peripheral already owns a register of
that name.  On failure no modified device is produced (an `error` result of
this embedding carries no device, so the input device is all the caller
keeps), on success the target peripheral gains exactly the cloned register. -/
theorem copy_register_clones_or_duplicate
    (d : Device) (from_p to_p rn : String) (pf pt : Peripheral) (reg : Register)
    (hpf : d.periph from_p = some pf) (hreg : pf.reg rn = some reg)
    (hpt : d.periph to_p = some pt) :
    ((pt.reg rn).isSome = true →
      copy_reg d from_p to_p rn = .error (.duplicateRegister to_p rn))
    ∧ (pt.reg rn = none →
      copy_reg d from_p to_p rn
        = .ok (d.setPeriph (Peripheral.mk pt.name (pt.regs ++ [reg]) pt.interrupts))
      ∧ ∃ pt2,
          (d.setPeriph (Peripheral.mk pt.name (pt.regs ++ [reg]) pt.interrupts)).periph to_p
            = some pt2
          ∧ pt2.reg rn = some reg) := by
  have hregname : reg.name = rn := Peripheral.reg_name hreg
  have hptname : pt.name = to_p := Device.periph_name hpt
  constructor
  · intro hdup
    simp only [copy_reg, hpf, hreg, hpt]
    simp [Peripheral.add_reg, hregname, hdup, hptname, Except.map]
  · intro hnone
    have hok : copy_reg d from_p to_p rn
        = .ok (d.setPeriph (Peripheral.mk pt.name (pt.regs ++ [reg]) pt.interrupts)) := by
      simp only [copy_reg, hpf, hreg, hpt]
      simp [Peripheral.add_reg, hregname, hnone, Except.map]
    refine ⟨hok, Peripheral.mk pt.name (pt.regs ++ [reg]) pt.interrupts, ?_, ?_⟩
    · rw [Device.setPeriph_periph, hpt]
      simp
    · rw [Peripheral.reg_append pt [reg] rn]
      rw [hnone]
      simp [List.find?, hregname]

/-- Closed instance of `copy_register_clones_or_duplicate`: copying `MODER`
from `GPIOA` into a `GPIOB` that already owns `MODER` fails with
`DuplicateRegister`, and copying into a fresh `GPIOB` succeeds and installs
the register with its field. -/
theorem copy_register_clones_or_duplicate_witness :
    copy_reg moderScenarioDev "GPIOA" "GPIOB" "MODER"
      = .error (.duplicateRegister "GPIOB" "MODER")
    ∧ ∃ pt2,
        (moderFreshDev.setPeriph
            (Peripheral.mk "GPIOB" ([] ++ [{ name := "MODER", fields := [moderField0] }]) [])).periph "GPIOB"
          = some pt2
        ∧ pt2.reg "MODER" = some { name := "MODER", fields := [moderField0] } := by
  constructor
  · exact (copy_register_clones_or_duplicate moderScenarioDev "GPIOA" "GPIOB" "MODER"
      { name := "GPIOA", regs := [{ name := "MODER", fields := [moderField0] }] }
      { name := "GPIOB", regs := [{ name := "MODER", fields := [moderField0] }] }
      { name := "MODER", fields := [moderField0] }
      (by decide) (by decide) (by decide)).1 (by decide)
  · exact ((copy_register_clones_or_duplicate moderFreshDev "GPIOA" "GPIOB" "MODER"
      { name := "GPIOA", regs := [{ name := "MODER", fields := [moderField0] }] }
      { name := "GPIOB", regs := [] }
      { name := "MODER", fields := [moderField0] }
      (by decide) (by decide) (by decide)).2 (by decide)).2

/-- C2: `copy_field` clones the named field from the source peripheral's
register into the same-named register of the target peripheral, failing with
`FieldOverlap` whenever that register already contains a field occupying an
overlapping bit range; in particular the spec's `GPIOA`/`GPIOB` `MODER0`
scenario fails with `FieldOverlap`. -/
theorem copy_field_clones_or_overlap :
    (∀ (d : Device) (from_p to_p rn fn : String) (pf pt : Peripheral)
        (rf rt : Register) (fld : Field),
      d.periph from_p = some pf → pf.reg rn = some rf → rf.field fn = some fld →
      d.periph to_p = some pt → pt.reg rn = some rt →
      (rt.fields.any (fun g => g.overlaps fld) = true →
        copy_field d from_p to_p rn fn = .error (.fieldOverlap to_p rn fn))
      ∧ (rt.fields.any (fun g => g.overlaps fld) = false →
        copy_field d from_p to_p rn fn
          = .ok (d.setPeriph (pt.setReg (Register.mk rt.name (rt.fields ++ [fld]))))))
    ∧ copy_field moderScenarioDev "GPIOA" "GPIOB" "MODER" "MODER0"
        = .error (.fieldOverlap "GPIOB" "MODER" "MODER0") := by
  constructor
  · intro d from_p to_p rn fn pf pt rf rt fld hpf hrf hfld hpt hrt
    have hfname : fld.name = fn := Register.field_name hfld
    have hrtname : rt.name = rn := Peripheral.reg_name hrt
    constructor
    · intro hover
      simp only [copy_field, hpf, hrf, hfld, hpt, hrt]
      simp [Register.add_field, hover, hfname, hrtname, Except.map]
    · intro hfree
      simp only [copy_field, hpf, hrf, hfld, hpt, hrt]
      simp [Register.add_field, hfree, Except.map]
  · decide

/-- Closed instance of `copy_field_clones_or_overlap`: the general statement
applied to the spec's scenario device yields the `FieldOverlap` failure. -/
theorem copy_field_clones_or_overlap_witness :
    copy_field moderScenarioDev "GPIOA" "GPIOB" "MODER" "MODER0"
      = .error (.fieldOverlap "GPIOB" "MODER" "MODER0") :=
  (copy_field_clones_or_overlap.1 moderScenarioDev "GPIOA" "GPIOB" "MODER" "MODER0"
    { name := "GPIOA", regs := [{ name := "MODER", fields := [moderField0] }] }
    { name := "GPIOB", regs := [{ name := "MODER", fields := [moderField0] }] }
    { name := "MODER", fields := [moderField0] }
    { name := "MODER", fields := [moderField0] }
    moderField0
    (by decide) (by decide) (by decide) (by decide) (by decide)).1 (by decide)

/-- C4 counterexample: the closed set of keys accepted by `svd_deserialize`
has 27 distinct members, not 26 as claimed. -/
theorem supported_keys_are_27_not_26 :
    supportedKeys.Nodup ∧ supportedKeys.length = 27 ∧ supportedKeys.length ≠ 26 := by
  decide

set_option maxHeartbeats 3200000 in
/-- C4 (amended: the closed set has 27 keys): a Variant Key outside the
supported set makes `svd_deserialize` fail with `UnsupportedVariant` under
every parse semantics, i.e. before any description file is consulted, while
every supported key parses exactly one SVD file: the key determines a single
file, the result depends only on that file's parse result, and a parse
failure of that file propagates (so the parse really happens). -/
theorem svd_deserialize_closed_dispatch (mcu : String) :
    (mcu ∉ supportedKeys →
      ∀ F parse, svd_deserialize F parse mcu = .error .unsupportedVariant)
    ∧ (mcu ∈ supportedKeys →
      ∃ f, svdFile mcu = some f
        ∧ (∀ F parse parse2,
            parse ("files/" ++ f) = parse2 ("files/" ++ f) →
            svd_deserialize F parse mcu = svd_deserialize F parse2 mcu)
        ∧ (∀ F parse e, parse ("files/" ++ f) = .error e →
            svd_deserialize F parse mcu = .error e)) := by
  constructor
  · intro h F parse
    unfold svd_deserialize
    split <;> simp_all [supportedKeys]
  · intro h
    simp only [supportedKeys, List.mem_cons, List.not_mem_nil, or_false] at h
    rcases h with rfl|rfl|rfl|rfl|rfl|rfl|rfl|rfl|rfl|rfl|rfl|rfl|rfl|rfl|rfl|rfl|rfl|rfl|
      rfl|rfl|rfl|rfl|rfl|rfl|rfl|rfl|rfl <;>
      exact ⟨_, rfl,
        fun F parse parse2 hp => by
          simp only [svd_deserialize, parse_svd, hp],
        fun F parse e hp => by
          simp only [svd_deserialize, parse_svd, hp, Except.bind]⟩

/-- Parse semantics failing on every path. -/
def failParse : String → Except SvdError Device :=
  fun _ => .error (.parseError "unreadable")

/-- Closed instance of `svd_deserialize_closed_dispatch`: an unrecognized key
fails with `UnsupportedVariant`, and a supported key consults its single SVD
file (its parse failure propagates). -/
theorem svd_deserialize_closed_dispatch_witness :
    svd_deserialize trivialFixes constParse "stm32f9999" = .error .unsupportedVariant
    ∧ svd_deserialize trivialFixes failParse "stm32f100" = .error (.parseError "unreadable") := by
  constructor
  · exact (svd_deserialize_closed_dispatch "stm32f9999").1 (by decide) trivialFixes constParse
  · obtain ⟨f, hf, hdep, herr⟩ := (svd_deserialize_closed_dispatch "stm32f100").2 (by decide)
    exact herr trivialFixes failParse (.parseError "unreadable") rfl

/-- C7: the defect-free keys `stm32f100`, `stm32f101`, `stm32f103` and
`stm32f107` run the empty patch program: under every fix semantics the
deserialized device is exactly the parse result of the variant's single SVD
file, with no patch operation applied. -/
theorem no_defect_variants_identity :
    ∀ (F : FixSemantics) (parse : String → Except SvdError Device),
      svd_deserialize F parse "stm32f100" = parse_svd parse "STM32F100.svd"
      ∧ svd_deserialize F parse "stm32f101" = parse_svd parse "STM32F101.svd"
      ∧ svd_deserialize F parse "stm32f103" = parse_svd parse "STM32F103.svd"
      ∧ svd_deserialize F parse "stm32f107" = parse_svd parse "STM32F107.svd" :=
  fun _ _ => ⟨rfl, rfl, rfl, rfl⟩

theorem except_map_ok {ε α β : Type} {e : Except ε α} {g : α → β} {x : β}
    (h : Except.map g e = .ok x) : ∃ y, e = .ok y ∧ g y = x := by
  cases e with
  | error z => simp [Except.map] at h
  | ok y =>
    refine ⟨y, rfl, ?_⟩
    simpa [Except.map] using h

theorem generate_regs_no_excluded (dev : Device) (ex : List String)
    (pn ps : Nat) : ∀ rd ∈ dev.generate_regs ex pn ps, rd.periph ∉ ex := by
  intro rd hrd
  simp only [Device.generate_regs, List.mem_flatMap, List.mem_filter,
    List.mem_map] at hrd
  obtain ⟨p, ⟨hp, hkeep⟩, r, hr, rfl⟩ := hrd
  simpa using hkeep

theorem generate_rest_no_excluded (dev : Device) (ex : List String)
    (tn : String) :
    (∀ ent ∈ (dev.generate_rest ex tn).1, ent.1 ∉ ex)
    ∧ (∀ irq ∈ (dev.generate_rest ex tn).2, irq.periph ∉ ex) := by
  constructor
  · intro ent hent
    simp only [Device.generate_rest, List.mem_map, List.mem_filter] at hent
    obtain ⟨p, ⟨hp, hkeep⟩, rfl⟩ := hent
    simpa using hkeep
  · intro irq hirq
    simp only [Device.generate_rest, List.mem_flatMap, List.mem_filter,
      List.mem_map] at hirq
    obtain ⟨p, ⟨hp, hkeep⟩, i, hi, rfl⟩ := hirq
    simpa using hkeep

/-- C5: both emission entry points pass the same fixed exclusion list `FPU`,
`FPU_CPACR`, `ITM`, `MPU`, `NVIC`, `SCB`, `STK`, `TPIU`, and for every
variant no emitted artifact — register/field definitions, register token
index, interrupt definitions — contains an entry for an excluded
peripheral. -/
theorem emission_respects_exclusion :
    REG_EXCLUDE = ["FPU", "FPU_CPACR", "ITM", "MPU", "NVIC", "SCB", "STK", "TPIU"]
    ∧ (∀ F parse mcu pn ps out, generate_regs F parse mcu pn ps = .ok out →
        ∀ rd ∈ out, rd.periph ∉ REG_EXCLUDE)
    ∧ (∀ F parse mcu out, generate_rest F parse mcu = .ok out →
        (∀ ent ∈ out.1, ent.1 ∉ REG_EXCLUDE)
        ∧ (∀ irq ∈ out.2, irq.periph ∉ REG_EXCLUDE)) := by
  refine ⟨rfl, ?_, ?_⟩
  · intro F parse mcu pn ps out hout
    obtain ⟨dev, hdev, rfl⟩ := except_map_ok hout
    exact generate_regs_no_excluded dev REG_EXCLUDE pn ps
  · intro F parse mcu out hout
    obtain ⟨dev, hdev, rfl⟩ := except_map_ok hout
    exact generate_rest_no_excluded dev REG_EXCLUDE "stm32_reg_tokens"

/-- Device with one excluded and one ordinary peripheral, used to exercise
the emission entry points. -/
def excludeDemoDev : Device :=
  { periphs :=
      [{ name := "NVIC", regs := [{ name := "ICSR", fields := [] }] },
       { name := "GPIOA", regs := [{ name := "ODR", fields := [] }],
         interrupts := [{ name := "EXTI0", value := 6 }] }] }

/-- Parse semantics returning `excludeDemoDev` for every path. -/
def excludeDemoParse : String → Except SvdError Device :=
  fun _ => .ok excludeDemoDev

/-- Closed instance of `emission_respects_exclusion`: on a device carrying an
`NVIC` peripheral, the emitted register definitions contain no excluded
entry. -/
theorem emission_respects_exclusion_witness :
    ∀ rd ∈ [({ periph := "GPIOA", reg := "ODR", fields := [] } : RegDef)],
      rd.periph ∉ REG_EXCLUDE :=
  emission_respects_exclusion.2.1 trivialFixes excludeDemoParse "stm32f100" 1 1
    [{ periph := "GPIOA", reg := "ODR", fields := [] }] (by decide)

theorem regPresent_setPeriph_mono {d : Device} {tn : String} {p0 p2 : Peripheral}
    (hp : d.periph tn = some p0) (hname : p2.name = p0.name)
    (hregs : ∀ s, (p0.reg s).isSome = true → (p2.reg s).isSome = true)
    {pn rn : String} (hpres : d.regPresent pn rn = true) :
    (d.setPeriph p2).regPresent pn rn = true := by
  unfold Device.regPresent at hpres ⊢
  rw [Device.setPeriph_periph]
  cases hq : d.periph pn with
  | none => simp [hq] at hpres
  | some pp =>
    rw [hq] at hpres
    simp only [Option.some_bind] at hpres
    simp only [Option.map_some', Option.some_bind]
    by_cases hc : pp.name = p2.name
    · rw [if_pos hc]
      have h1 : pp.name = pn := Device.periph_name hq
      have h2 : p0.name = tn := Device.periph_name hp
      have h3 : pn = tn := by rw [← h1, hc, hname, h2]
      subst h3
      rw [hp] at hq
      have h4 : p0 = pp := Option.some.inj hq
      exact hregs rn (h4 ▸ hpres)
    · rw [if_neg hc]
      exact hpres

theorem reg_isSome_append (p : Peripheral) (rs : List Register) (s : String)
    (h : (p.reg s).isSome = true) :
    ((Peripheral.mk p.name (p.regs ++ rs) p.interrupts).reg s).isSome = true := by
  rw [Peripheral.reg_append]
  cases hq : p.reg s with
  | none => rw [hq] at h; exact absurd h (by simp)
  | some r => simp [Option.or]

theorem reg_isSome_setReg (p : Peripheral) (r2 : Register) (s : String)
    (h : (p.reg s).isSome = true) :
    ((p.setReg r2).reg s).isSome = true := by
  rw [Peripheral.setReg_reg]
  cases hq : p.reg s with
  | none => rw [hq] at h; exact absurd h (by simp)
  | some r => simp

theorem runOp_preserves_reg {d d' : Device} {op : PatchOp}
    (hadd : op.additive = true) (h : runOp d op = .ok d')
    {pn rn : String} (hpres : d.regPresent pn rn = true) :
    d'.regPresent pn rn = true := by
  cases op with
  | copyRegister pf pt rname =>
    simp only [runOp] at h
    unfold copy_reg at h
    split at h
    · exact absurd h (by simp)
    next pf0 h1 =>
    split at h
    · exact absurd h (by simp)
    next reg h2 =>
    split at h
    · exact absurd h (by simp)
    next pt0 h3 =>
    obtain ⟨p2, hp2, rfl⟩ := except_map_ok h
    unfold Peripheral.add_reg at hp2
    split at hp2
    · exact absurd hp2 (by simp)
    injection hp2 with h5
    subst h5
    exact regPresent_setPeriph_mono h3
      (show (Peripheral.mk pt0.name (pt0.regs ++ [reg]) pt0.interrupts).name = pt0.name from rfl)
      (fun s hs => reg_isSome_append pt0 [reg] s hs) hpres
  | copyField pf pt rname fname =>
    simp only [runOp] at h
    unfold copy_field at h
    split at h
    · exact absurd h (by simp)
    next pf0 h1 =>
    split at h
    · exact absurd h (by simp)
    next rf0 h2 =>
    split at h
    · exact absurd h (by simp)
    next fld h3 =>
    split at h
    · exact absurd h (by simp)
    next pt0 h4 =>
    split at h
    · exact absurd h (by simp)
    next rt0 h5 =>
    obtain ⟨rt2, hrt2, rfl⟩ := except_map_ok h
    exact regPresent_setPeriph_mono h4
      (show (pt0.setReg rt2).name = pt0.name from rfl)
      (fun s hs => reg_isSome_setReg pt0 rt2 s hs) hpres
  | addRegister pname reg =>
    simp only [runOp] at h
    split at h
    · exact absurd h (by simp)
    next p0 h1 =>
    obtain ⟨p2, hp2, rfl⟩ := except_map_ok h
    unfold Peripheral.add_reg at hp2
    split at hp2
    · exact absurd hp2 (by simp)
    injection hp2 with h5
    subst h5
    exact regPresent_setPeriph_mono h1
      (show (Peripheral.mk p0.name (p0.regs ++ [reg]) p0.interrupts).name = p0.name from rfl)
      (fun s hs => reg_isSome_append p0 [reg] s hs) hpres
  | addField pname rname f =>
    simp only [runOp] at h
    split at h
    · exact absurd h (by simp)
    next p0 h1 =>
    split at h
    · exact absurd h (by simp)
    next r0 h2 =>
    obtain ⟨r2, hr2, rfl⟩ := except_map_ok h
    exact regPresent_setPeriph_mono h1
      (show (p0.setReg r2).name = p0.name from rfl)
      (fun s hs => reg_isSome_setReg p0 r2 s hs) hpres
  | removeRegister pname rname =>
    exact absurd hadd (by simp [PatchOp.additive])
  | resizeField pname rname fname w =>
    simp only [runOp] at h
    split at h
    · exact absurd h (by simp)
    next p0 h1 =>
    split at h
    · exact absurd h (by simp)
    next r0 h2 =>
    obtain ⟨r2, hr2, rfl⟩ := except_map_ok h
    exact regPresent_setPeriph_mono h1
      (show (p0.setReg r2).name = p0.name from rfl)
      (fun s hs => reg_isSome_setReg p0 r2 s hs) hpres
  | repositionField pname rname fname off =>
    simp only [runOp] at h
    split at h
    · exact absurd h (by simp)
    next p0 h1 =>
    split at h
    · exact absurd h (by simp)
    next r0 h2 =>
    obtain ⟨r2, hr2, rfl⟩ := except_map_ok h
    exact regPresent_setPeriph_mono h1
      (show (p0.setReg r2).name = p0.name from rfl)
      (fun s hs => reg_isSome_setReg p0 r2 s hs) hpres

theorem runProgram_append (d : Device) (P1 P2 : List PatchOp) :
    runProgram d (P1 ++ P2) = (runProgram d P1).bind (fun d2 => runProgram d2 P2) := by
  induction P1 generalizing d with
  | nil => simp [runProgram, Except.bind]
  | cons op ops ih =>
    simp only [List.cons_append, runProgram]
    cases runOp d op with
    | error e => rfl
    | ok d2 => simp only [Except.bind]; exact ih d2

theorem runProgram_preserves_reg {P : List PatchOp}
    (hadd : ∀ op ∈ P, op.additive = true) {d d' : Device}
    (h : runProgram d P = .ok d') {pn rn : String}
    (hpres : d.regPresent pn rn = true) : d'.regPresent pn rn = true := by
  induction P generalizing d with
  | nil =>
    obtain rfl : d = d' := by simpa [runProgram] using h
    exact hpres
  | cons op ops ih =>
    obtain ⟨d2, h1, h2⟩ := except_bind_ok h
    exact ih (fun o ho => hadd o (List.mem_cons_of_mem _ ho)) h2
      (runOp_preserves_reg (hadd op (List.mem_cons_self _ _)) h1 hpres)

theorem copy_reg_ok_present {d d' : Device} {pf pt rn : String}
    (h : copy_reg d pf pt rn = .ok d') : d'.regPresent pt rn = true := by
  unfold copy_reg at h
  split at h
  · exact absurd h (by simp)
  next pf0 h1 =>
  split at h
  · exact absurd h (by simp)
  next reg h2 =>
  split at h
  · exact absurd h (by simp)
  next pt0 h3 =>
  obtain ⟨p2, hp2, rfl⟩ := except_map_ok h
  unfold Peripheral.add_reg at hp2
  split at hp2
  · exact absurd hp2 (by simp)
  next h4 =>
  injection hp2 with h5
  subst h5
  have hrname : reg.name = rn := Peripheral.reg_name h2
  have hper : (d.setPeriph (Peripheral.mk pt0.name (pt0.regs ++ [reg]) pt0.interrupts)).periph pt
      = some (Peripheral.mk pt0.name (pt0.regs ++ [reg]) pt0.interrupts) := by
    rw [Device.setPeriph_periph, h3]
    simp
  unfold Device.regPresent
  rw [hper]
  simp only [Option.some_bind]
  rw [Peripheral.reg_append pt0 [reg] rn]
  cases hq : pt0.reg rn with
  | some r => simp [Option.or]
  | none => simp [Option.or, List.find?, hrname]

theorem copy_reg_error_of_present (pf : String) {d : Device} {pt rn : String}
    (h : d.regPresent pt rn = true) : ∃ e, copy_reg d pf pt rn = .error e := by
  unfold Device.regPresent at h
  cases h3 : d.periph pt with
  | none => rw [h3] at h; exact absurd h (by simp)
  | some pt0 =>
    rw [h3] at h
    simp only [Option.some_bind] at h
    cases h1 : d.periph pf with
    | none => exact ⟨.lookupError pf, by simp only [copy_reg, h1]⟩
    | some pf0 =>
      cases h2 : pf0.reg rn with
      | none => exact ⟨.lookupError rn, by simp only [copy_reg, h1, h2]⟩
      | some reg =>
        have hrname : reg.name = rn := Peripheral.reg_name h2
        exact ⟨.duplicateRegister pt0.name rn,
          by simp only [copy_reg, h1, h2, h3, Peripheral.add_reg, hrname, h,
            if_true, Except.map]⟩

/-- Expected device after copying `MODER` from `GPIOA` into the fresh
`GPIOB` of `moderFreshDev`. -/
def moderCopiedDev : Device :=
  { periphs :=
      [{ name := "GPIOA", regs := [{ name := "MODER", fields := [moderField0] }] },
       { name := "GPIOB", regs := [{ name := "MODER", fields := [moderField0] }] }] }

/-- C6: a strictly additive patch program (spec 4.3) containing a
`copy_register` operation is not idempotent: if it succeeds on a device, a
second application to its own output fails; concretely, rerunning a
one-operation `copy_register` program fails with `DuplicateRegister` on the
repeated `copy_register`. -/
theorem patch_program_not_idempotent :
    (∀ (P : List PatchOp) (pf pt rn : String) (d d' : Device),
      PatchOp.copyRegister pf pt rn ∈ P →
      (∀ op ∈ P, op.additive = true) →
      runProgram d P = .ok d' →
      ∃ e, runProgram d' P = .error e)
    ∧ runProgram moderFreshDev [.copyRegister "GPIOA" "GPIOB" "MODER"] = .ok moderCopiedDev
    ∧ runProgram moderCopiedDev [.copyRegister "GPIOA" "GPIOB" "MODER"]
        = .error (.duplicateRegister "GPIOB" "MODER") := by
  refine ⟨?_, by decide, by decide⟩
  intro P pf pt rn d d' hmem hadd hrun
  obtain ⟨P1, P2, rfl⟩ := List.append_of_mem hmem
  rw [runProgram_append] at hrun
  obtain ⟨d1, hrun1, hrun2⟩ := except_bind_ok hrun
  obtain ⟨d2, hop, hrun3⟩ := except_bind_ok hrun2
  have hpres2 : d2.regPresent pt rn = true := copy_reg_ok_present hop
  have hadd2 : ∀ op ∈ P2, op.additive = true :=
    fun op ho => hadd op (List.mem_append_right P1 (List.mem_cons_of_mem _ ho))
  have hadd1 : ∀ op ∈ P1, op.additive = true :=
    fun op ho => hadd op (List.mem_append_left _ ho)
  have hpresd' : d'.regPresent pt rn = true :=
    runProgram_preserves_reg hadd2 hrun3 hpres2
  rw [runProgram_append]
  cases hq : runProgram d' P1 with
  | error e => exact ⟨e, rfl⟩
  | ok e1 =>
    have hprese1 : e1.regPresent pt rn = true :=
      runProgram_preserves_reg hadd1 hq hpresd'
    obtain ⟨e, he⟩ := copy_reg_error_of_present pf hprese1
    refine ⟨e, ?_⟩
    simp only [Except.bind, runProgram, runOp, he]

/-- Closed instance of `patch_program_not_idempotent`: the second run of the
concrete one-operation program fails. -/
theorem patch_program_not_idempotent_witness :
    ∃ e, runProgram moderCopiedDev [.copyRegister "GPIOA" "GPIOB" "MODER"] = .error e :=
  patch_program_not_idempotent.1 [.copyRegister "GPIOA" "GPIOB" "MODER"]
    "GPIOA" "GPIOB" "MODER" moderFreshDev moderCopiedDev
    (by decide) (by decide) (by decide)

theorem runFixes_preserves_gpioa {F : FixSemantics}
    (hF : ∀ fx d dx, F fx d = .ok dx → dx.periph "GPIOA" = d.periph "GPIOA") :
    ∀ (steps : List FixName) (d d2 : Device),
      runFixes F steps d = .ok d2 → d2.periph "GPIOA" = d.periph "GPIOA" := by
  intro steps
  induction steps with
  | nil =>
    intro d d2 h
    obtain rfl : d = d2 := by simpa [runFixes] using h
    rfl
  | cons fx fs ih =>
    intro d d2 h
    obtain ⟨dm, h1, h2⟩ := except_bind_ok h
    rw [ih dm d2 h2, hF fx d dm h1]

/-- C3: schema/pipeline agreement on the GPIO `ASCR` register.  The schema
guards `ASCR` exactly on the keys `stm32l4x5` and `stm32l4x6` with the
sixteen single-bit fields `ASC0` .. `ASC15`; the `gpio::add_ascr` patch step
runs exactly for `stm32l4x5`; the patch installs into a port lacking `ASCR`
a register whose (register, field, position, width) triples are exactly the
schema's; and for `stm32l4x6` — where the patch does not run, so the vendor
description must already carry `ASCR` — the patched pipeline preserves those
triples through the variant's patch program (whose steps, living outside
`src/`, are assumed to leave the GPIO port untouched per spec 4.3). -/
theorem schema_pipeline_ascr_agreement :
    (∀ v : Mcu, ((expandGpio v).any (fun r => r.name = "ASCR") = true
        ↔ (v = .stm32l4x5 ∨ v = .stm32l4x6)))
    ∧ (FixName.gpio_add_ascr ∈ patch_stm32l4x5_steps
        ∧ FixName.gpio_add_ascr ∉ patch_stm32l4x6_steps)
    ∧ ((gpioSchema.find? (fun r => r.name = "ASCR")).map
          (fun r => r.fields.map SchemaField.name)
        = some (schemaAscrTriples.map (fun t => t.2.1)))
    ∧ ((gpioSchema.find? (fun r => r.name = "ASCR")).map
          (fun r => r.fields.all (fun f => f.kind = .rwRwRegFieldBit)) = some true)
    ∧ schemaAscrTriples.all (fun t => t.2.2.2 = 1) = true
    ∧ regTriples ascrRegister = schemaAscrTriples
    ∧ (∀ (d : Device) (port : String) (p : Peripheral),
        d.periph port = some p → p.reg "ASCR" = none →
        ∃ d2, add_ascr d port = .ok d2
          ∧ ∃ p2, d2.periph port = some p2 ∧ p2.reg "ASCR" = some ascrRegister)
    ∧ (∀ (F : FixSemantics) (parse : String → Except SvdError Device) (d0 d2 : Device),
        (∀ fx d dx, F fx d = .ok dx → dx.periph "GPIOA" = d.periph "GPIOA") →
        parse ("files/" ++ "STM32L4x6.svd") = .ok d0 →
        gpioAscrOf d0 = some ascrRegister →
        svd_deserialize F parse "stm32l4x6" = .ok d2 →
        gpioAscrOf d2 = some ascrRegister) := by
  refine ⟨by decide, by decide, by decide, by decide, by decide, by decide, ?_, ?_⟩
  · intro d port p hp hnone
    refine ⟨d.setPeriph (Peripheral.mk p.name (p.regs ++ [ascrRegister]) p.interrupts), ?_, ?_⟩
    · simp only [add_ascr, runOp, hp, Peripheral.add_reg]
      rw [show ascrRegister.name = "ASCR" from rfl, hnone]
      simp [Except.map]
    · refine ⟨Peripheral.mk p.name (p.regs ++ [ascrRegister]) p.interrupts, ?_, ?_⟩
      · rw [Device.setPeriph_periph, hp]
        simp
      · rw [Peripheral.reg_append p [ascrRegister] "ASCR", hnone]
        simp [Option.or, List.find?, show ascrRegister.name = "ASCR" from rfl]
  · intro F parse d0 d2 hF hparse hascr h
    replace h : (parse ("files/" ++ "STM32L4x6.svd")).bind
        (runFixes F patch_stm32l4x6_steps) = .ok d2 := h
    rw [hparse] at h
    simp only [Except.bind] at h
    have hper : d2.periph "GPIOA" = d0.periph "GPIOA" :=
      runFixes_preserves_gpioa hF patch_stm32l4x6_steps d0 d2 h
    unfold gpioAscrOf at hascr ⊢
    rw [hper]
    exact hascr

/-- Closed instance of `schema_pipeline_ascr_agreement`: adding `ASCR` to a
bare `GPIOA` port installs the schema's register. -/
theorem schema_pipeline_ascr_agreement_witness :
    ∃ d2, add_ascr { periphs := [{ name := "GPIOA", regs := [] }] } "GPIOA" = .ok d2
      ∧ ∃ p2, d2.periph "GPIOA" = some p2 ∧ p2.reg "ASCR" = some ascrRegister :=
  schema_pipeline_ascr_agreement.2.2.2.2.2.2.1
    { periphs := [{ name := "GPIOA", regs := [] }] } "GPIOA"
    { name := "GPIOA", regs := [] } (by decide) (by decide)

theorem option_map_ascr_congr (v : Mcu) (oa ob : Option GpioPortArgs)
    (h : oa.map GpioPortArgs.ascr = ob.map GpioPortArgs.ascr) :
    oa.map (fun a => (map_gpio_port a v).gpioTokens)
      = ob.map (fun b => (map_gpio_port b v).gpioTokens) := by
  cases oa <;> cases ob <;> simp_all [map_gpio_port]

theorem option_map_rcc_congr (v : Mcu) (oa ob : Option GpioPortArgs)
    (h : oa.map (fun a => (a.busenr, a.busrstr, a.bussmenr))
       = ob.map (fun b => (b.busenr, b.busrstr, b.bussmenr))) :
    oa.map (fun a => (map_gpio_port a v).rccTokens.map
        (fun rt => (rt.token, rt.svdReg, rt.fields.map FieldToken.token)))
      = ob.map (fun b => (map_gpio_port b v).rccTokens.map
        (fun rt => (rt.token, rt.svdReg, rt.fields.map FieldToken.token))) := by
  cases oa <;> cases ob <;>
    simp_all [map_gpio_port, rccPortTokens, apply_ite (List.map
      (fun rt : RegToken => (rt.token, rt.svdReg, rt.fields.map FieldToken.token)))]

/-- C8: on every Variant Key both a port A and a port B instantiation of the
GPIO schema exist; their GPIO register token sets (register tokens, bound
registers, field tokens and bindings) are identical entry for entry and
their RCC token structure is identical up to the per-port bound fields,
while the two token sets are nominally distinct: port type `GpioA` against
`GpioB`, bound to peripheral `GPIOA` against `GPIOB`, so the two are not
interchangeable (type identity is nominal in the generated code). -/
theorem gpio_port_a_b_expansion :
    (∀ v : Mcu,
      (activeInstance v "GpioA").map (fun a => (map_gpio_port a v).gpioTokens)
        = (activeInstance v "GpioB").map (fun b => (map_gpio_port b v).gpioTokens)
      ∧ (activeInstance v "GpioA").map (fun a => (map_gpio_port a v).port_ty) = some "GpioA"
      ∧ (activeInstance v "GpioB").map (fun b => (map_gpio_port b v).port_ty) = some "GpioB"
      ∧ (activeInstance v "GpioA").map (fun a => (map_gpio_port a v).gpioPeriph) = some "GPIOA"
      ∧ (activeInstance v "GpioB").map (fun b => (map_gpio_port b v).gpioPeriph) = some "GPIOB"
      ∧ (activeInstance v "GpioA").map (fun a => (map_gpio_port a v).rccTokens.map
            (fun rt => (rt.token, rt.svdReg, rt.fields.map FieldToken.token)))
        = (activeInstance v "GpioB").map (fun b => (map_gpio_port b v).rccTokens.map
            (fun rt => (rt.token, rt.svdReg, rt.fields.map FieldToken.token))))
    ∧ ("GpioA" : String) ≠ "GpioB" ∧ ("GPIOA" : String) ≠ "GPIOB" := by
  have hascr : ∀ v : Mcu, (activeInstance v "GpioA").map GpioPortArgs.ascr
      = (activeInstance v "GpioB").map GpioPortArgs.ascr := by decide
  have hbus : ∀ v : Mcu,
      (activeInstance v "GpioA").map (fun a => (a.busenr, a.busrstr, a.bussmenr))
        = (activeInstance v "GpioB").map (fun b => (b.busenr, b.busrstr, b.bussmenr)) := by
    decide
  have htyA : ∀ v : Mcu,
      (activeInstance v "GpioA").map (fun a => (map_gpio_port a v).port_ty) = some "GpioA" := by
    decide
  have htyB : ∀ v : Mcu,
      (activeInstance v "GpioB").map (fun b => (map_gpio_port b v).port_ty) = some "GpioB" := by
    decide
  have hgpA : ∀ v : Mcu,
      (activeInstance v "GpioA").map (fun a => (map_gpio_port a v).gpioPeriph) = some "GPIOA" := by
    decide
  have hgpB : ∀ v : Mcu,
      (activeInstance v "GpioB").map (fun b => (map_gpio_port b v).gpioPeriph) = some "GPIOB" := by
    decide
  exact ⟨fun v => ⟨option_map_ascr_congr v _ _ (hascr v), htyA v, htyB v, hgpA v, hgpB v,
    option_map_rcc_congr v _ _ (hbus v)⟩, by decide, by decide⟩

/-- C9: on every Variant Key, every active port expansion carries exactly
one enable field token and one reset field token in the shared `BUSENR` /
`BUSRSTR` registers, the bound per-port enable (and reset) svd fields are
pairwise distinct across the active ports, and therefore — under the no-
overlap invariant that distinct fields of the shared register sit at
distinct bit positions — no two port instances own the same bit of the
shared register. -/
theorem shared_register_bit_ownership :
    (∀ v : Mcu, ∀ a ∈ activePorts v,
      (map_gpio_port a v).rccTokens.filter (fun rt => rt.token = "BUSENR")
        = [{ token := "BUSENR", svdReg := a.busenr, shared := true, optional := false,
             fields := [{ token := "GPIOEN", svdField := a.gpioen }] }]
      ∧ (map_gpio_port a v).rccTokens.filter (fun rt => rt.token = "BUSRSTR")
        = [{ token := "BUSRSTR", svdReg := a.busrstr, shared := true, optional := false,
             fields := [{ token := "GPIORST", svdField := a.gpiorst }] }])
    ∧ (∀ v : Mcu, ((activePorts v).map GpioPortArgs.gpioen).Nodup
        ∧ ((activePorts v).map GpioPortArgs.gpiorst).Nodup)
    ∧ (∀ v : Mcu, ∀ pos : String → Nat,
        (∀ f ∈ (activePorts v).map GpioPortArgs.gpioen,
          ∀ g ∈ (activePorts v).map GpioPortArgs.gpioen, pos f = pos g → f = g) →
        ∀ a ∈ activePorts v, ∀ b ∈ activePorts v, a ≠ b →
          pos a.gpioen ≠ pos b.gpioen) := by
  have hnd : ∀ v : Mcu, ((activePorts v).map GpioPortArgs.gpioen).Nodup
      ∧ ((activePorts v).map GpioPortArgs.gpiorst).Nodup := by decide
  refine ⟨by decide, hnd, ?_⟩
  intro v pos hinj a ha b hb hne hp
  have hgen : a.gpioen = b.gpioen :=
    hinj a.gpioen (List.mem_map_of_mem _ ha) b.gpioen (List.mem_map_of_mem _ hb) hp
  exact hne (List.inj_on_of_nodup_map (hnd v).1 ha hb hgen)

/-- Closed instance of `shared_register_bit_ownership`: on `stm32l4x6`, with
bit positions assigned injectively to the enable fields, ports A and B own
distinct bits of the shared bus-enable register. -/
theorem shared_register_bit_ownership_witness :
    (fun s => ((activePorts .stm32l4x6).map GpioPortArgs.gpioen).indexOf s) "GPIOAEN"
      ≠ (fun s => ((activePorts .stm32l4x6).map GpioPortArgs.gpioen).indexOf s) "GPIOBEN" := by
  have h := shared_register_bit_ownership.2.2 .stm32l4x6
    (fun s => ((activePorts .stm32l4x6).map GpioPortArgs.gpioen).indexOf s)
    (by decide)
    { port_ty := "GpioA", busenr := "AHB2ENR", busrstr := "AHB2RSTR",
      bussmenr := "AHB2SMENR", gpio := "GPIOA", gpioen := "GPIOAEN",
      gpiorst := "GPIOARST", gpiosmen := "GPIOASMEN", ascr := true }
    (by decide)
    { port_ty := "GpioB", busenr := "AHB2ENR", busrstr := "AHB2RSTR",
      bussmenr := "AHB2SMENR", gpio := "GPIOB", gpioen := "GPIOBEN",
      gpiorst := "GPIOBRST", gpiosmen := "GPIOBSMEN", ascr := true }
    (by decide)
    (by decide)
  exact h

/-- Closed instance of `gpio_port_a_b_expansion` at `stm32l4x6`: the two
port expansions have identical GPIO token sets. -/
theorem gpio_port_a_b_expansion_witness :
    (activeInstance .stm32l4x6 "GpioA").map (fun a => (map_gpio_port a .stm32l4x6).gpioTokens)
      = (activeInstance .stm32l4x6 "GpioB").map (fun b => (map_gpio_port b .stm32l4x6).gpioTokens) :=
  (gpio_port_a_b_expansion.1 .stm32l4x6).1

/-- C10: the GPIO schema entries `BSRR`, `IDR`, `LCKR` and `ODR` carry no
variant guard — they are included, with their full per-bit field sets, in
the expansion for every Variant Key — while `MODER`, `AFRL`, `AFRH`, `CRL`,
`CRH`, `BRR` and `ASCR` are guarded by proper subsets of the Variant
Keys. -/
theorem unguarded_gpio_registers :
    ((gpioSchema.filter
        (fun r => ["BSRR", "IDR", "LCKR", "ODR"].contains r.name)).all
      (fun r => r.guard = none) = true)
    ∧ (gpioSchema.filter
        (fun r => ["BSRR", "IDR", "LCKR", "ODR"].contains r.name)).length = 4
    ∧ (∀ v : Mcu, (["BSRR", "IDR", "LCKR", "ODR"] : List String).all
        (fun n => (expandGpio v).any (fun r => r.name = n)) = true)
    ∧ (gpioSchema.filter (fun r => r.name = "BSRR")).map
        (fun r => r.fields.map SchemaField.name)
      = [["BR0", "BR1", "BR2", "BR3", "BR4", "BR5", "BR6", "BR7", "BR8", "BR9",
          "BR10", "BR11", "BR12", "BR13", "BR14", "BR15",
          "BS0", "BS1", "BS2", "BS3", "BS4", "BS5", "BS6", "BS7", "BS8", "BS9",
          "BS10", "BS11", "BS12", "BS13", "BS14", "BS15"]]
    ∧ (gpioSchema.filter (fun r => r.name = "IDR")).map
        (fun r => r.fields.map SchemaField.name)
      = [["IDR0", "IDR1", "IDR2", "IDR3", "IDR4", "IDR5", "IDR6", "IDR7",
          "IDR8", "IDR9", "IDR10", "IDR11", "IDR12", "IDR13", "IDR14", "IDR15"]]
    ∧ (gpioSchema.filter (fun r => r.name = "LCKR")).map
        (fun r => r.fields.map SchemaField.name)
      = [["LCK0", "LCK1", "LCK2", "LCK3", "LCK4", "LCK5", "LCK6", "LCK7",
          "LCK8", "LCK9", "LCK10", "LCK11", "LCK12", "LCK13", "LCK14", "LCK15",
          "LCKK"]]
    ∧ (gpioSchema.filter (fun r => r.name = "ODR")).map
        (fun r => r.fields.map SchemaField.name)
      = [["ODR0", "ODR1", "ODR2", "ODR3", "ODR4", "ODR5", "ODR6", "ODR7",
          "ODR8", "ODR9", "ODR10", "ODR11", "ODR12", "ODR13", "ODR14", "ODR15"]]
    ∧ ((gpioSchema.filter
          (fun r => ["MODER", "AFRL", "AFRH", "CRL", "CRH", "BRR", "ASCR"].contains r.name)).all
        (fun r => r.guard.isSome && decide (∃ v : Mcu, schemaActive v r = false)) = true)
    ∧ (gpioSchema.filter
        (fun r => ["MODER", "AFRL", "AFRH", "CRL", "CRH", "BRR", "ASCR"].contains r.name)).length
      = 7 := by
  refine ⟨by decide, by decide, by decide, by decide, by decide, by decide, by decide,
    by decide, by decide⟩

/-- Closed instance of `unguarded_gpio_registers` at `stm32f100`: the four
unguarded registers appear in the expansion. -/
theorem unguarded_gpio_registers_witness :
    (["BSRR", "IDR", "LCKR", "ODR"] : List String).all
      (fun n => (expandGpio .stm32f100).any (fun r => r.name = n)) = true :=
  unguarded_gpio_registers.2.2.1 .stm32f100

end DroneStm32Map
